import Mathlib

/-!
# Verification of the WebUI `Regenerator` (src/module/regenerator.py)

A shallow embedding of the event-driven object-graph regenerator:
the entity store, the per-instance staging area, the brok dispatcher
(`manage_brok`), the initial-load handlers, the linker
(`all_done_linking`) and the update handlers, translated from
`src/module/regenerator.py`.

Modelling conventions:
* Python scalar values are `PyVal`; Python truthiness is `PyVal.truthy`.
* Python objects referenced from several places (a hostgroup member is
  the same object as the store host) are identified by their `id`
  attribute; member/back-reference lists hold those identifiers.
* A raised Python exception is an explicit `PyErr` value; a handler that
  can raise returns `RState × Option PyErr`, the state component being
  the mutations performed before the raise (Python leaves them in place).
* `time.time()` is an explicit `now : Nat` argument; `str(uuid.uuid4())`
  is an explicit `fresh : String` argument.
-/

namespace Regen

/-- Python scalar values carried in brok `data` mappings.  Compound
values (lists, embedded objects) are given dedicated types at the spots
where the code inspects their shape. -/
inductive PyVal where
  | none
  | bool (b : Bool)
  | int (n : Int)
  | str (s : String)
  deriving Repr, DecidableEq

/-- Python truthiness of a scalar value. -/
def PyVal.truthy : PyVal → Bool
  | .none => false
  | .bool b => b
  | .int n => n != 0
  | .str s => s != ""

/-- Truthiness of `getattr(o, attr, None)` / `d.get(key, None)`:
an absent attribute or key reads as `None`, hence falsy. -/
def truthyO (o : Option PyVal) : Bool :=
  (o.getD PyVal.none).truthy

/-- `x is None` for an optional attribute/key: absent or bound to `None`. -/
def isNoneO (o : Option PyVal) : Bool :=
  o.getD PyVal.none == PyVal.none

/-- The `id`/`uuid` pair of attributes of a brok object
(`none` = the attribute is absent). -/
structure BrokIds where
  id : Option PyVal
  uuid : Option PyVal
  deriving Repr, DecidableEq

/-- `manage_brok`, brok-level identifier normalization
(regenerator.py lines 175-181): if `brok.id` is truthy copy it to
`brok.uuid`, otherwise if `brok.uuid` is truthy copy it to `brok.id`.
No identifier is synthesized at the brok level. -/
def normalize_brok_ids (b : BrokIds) : BrokIds :=
  if truthyO b.id then { b with uuid := b.id }
  else if truthyO b.uuid then { b with id := b.uuid }
  else b

/-- The `id`/`uuid` keys of a brok's `data` dict
(`none` = the key is absent). -/
structure DataIds where
  id : Option PyVal
  uuid : Option PyVal
  deriving Repr, DecidableEq

/-- `manage_brok`, data-level identifier normalization
(regenerator.py lines 183-193): mirror a truthy `data['id']` into
`data['uuid']`, else mirror a truthy `data['uuid']` into `data['id']`;
then, if `data.get('id', None) is None`, set both keys to a fresh
`str(uuid.uuid4())` value. -/
def normalize_data_ids (d : DataIds) (fresh : String) : DataIds :=
  let d1 :=
    if truthyO d.id then { d with uuid := d.id }
    else if truthyO d.uuid then { d with id := d.uuid }
    else d
  if isNoneO d1.id then { id := some (.str fresh), uuid := some (.str fresh) }
  else d1

/-! ## Linkable attribute shapes

Shinken broks carry live serialized objects, Alignak broks carry plain
ids/names; after a Linker pass the same attributes hold references to
store objects.  Store objects are referenced by their `id` attribute. -/

/-- The `command` slot of a `CommandCall`. -/
inductive CmdLink where
  | byName (s : String)
  | ref (cid : PyVal)
  | noneL
  deriving Repr, DecidableEq

/-- A host/service `check_command` / `event_handler` attribute. -/
inductive CcField where
  | noneV
  | rawStr (s : String)
  | call (c : CmdLink)
  deriving Repr, DecidableEq

/-- An entry of a notification way's `*_notification_commands` list. -/
inductive CcItem where
  | rawStr (s : String)
  | call (c : CmdLink)
  deriving Repr, DecidableEq

/-- Period attributes handled by `linkify_a_timeperiod_by_name`:
a name string before linking, a store Timeperiod after. -/
inductive TpNameField where
  | noneV
  | nm (s : String)
  | ref (tpid : PyVal)
  deriving Repr, DecidableEq

/-- Period attributes handled by `linkify_a_timeperiod`: an Alignak
uuid string, a Shinken embedded timeperiod-shaped object, or a linked
store Timeperiod (we record its id and its `timeperiod_name`). -/
inductive TpField where
  | noneV
  | uuidStr (s : String)
  | stub (nm : String)
  | ref (tpid : PyVal) (nm : String)
  deriving Repr, DecidableEq

/-- Contact-list entries: a name-or-uuid string, or a linked Contact. -/
inductive CnItem where
  | strv (s : String)
  | ref (cid : PyVal)
  deriving Repr, DecidableEq

/-- Dependency/impact list entries: a raw uuid string, or a linked
host / service reference. -/
inductive DepItem where
  | uuidStr (s : String)
  | href (hid : PyVal)
  | sref (sid : PyVal)
  deriving Repr, DecidableEq

/-- `impacts` / `source_problems` / `*_dependencies` attribute: either a
list, or a dict of shape `{'hosts': [names], 'services': [full names]}`
(the dict form always carries both keys and is truthy). -/
inductive DepField where
  | pyList (items : List DepItem)
  | pyDict (hostNames : List String) (serviceNames : List String)
  deriving Repr, DecidableEq

/-- Entry of a host's `hostgroups` list: a group name, or a linked
store Hostgroup. -/
inductive HgItem where
  | nm (s : String)
  | ref (gid : PyVal)
  deriving Repr, DecidableEq

/-- A host's `hostgroups` attribute: comma-separated names or a list. -/
inductive HgField where
  | pyStr (s : String)
  | pyList (items : List HgItem)
  deriving Repr, DecidableEq

/-- Entry of a service's `servicegroups` list: a group uuid string, or
a linked store Servicegroup. -/
inductive SgItem where
  | uuidStr (s : String)
  | ref (gid : PyVal)
  deriving Repr, DecidableEq

/-- A group `members` entry: a raw `(id, name)` pair from the brok, or
a linked object reference. -/
inductive GMember where
  | pr (i : PyVal) (nm : String)
  | ref (oid : PyVal)
  deriving Repr, DecidableEq

/-- A Downtime or Comment sub-object. -/
structure Dc where
  id : PyVal
  uuid : Option PyVal
  ref : Option PyVal
  persistent : Bool
  deriving Repr, DecidableEq

/-- A `downtimes`/`comments` attribute: a dict (whose `.values()` give
the list) or a list. -/
inductive DcColl where
  | asDict (l : List Dc)
  | asList (l : List Dc)
  deriving Repr, DecidableEq

/-- A timeperiod `exclude` entry: an unlinked timeperiod-shaped record
or a linked store Timeperiod; both expose `timeperiod_name`. -/
inductive ExItem where
  | stub (nm : String)
  | ref (tpid : PyVal) (nm : String)
  deriving Repr, DecidableEq

/-! ## Time ranges (Shinken `daterange.Timerange`) -/

/-- The Shinken `Timerange` object: built from an `"HH:MM-HH:MM"`
string, which it parses back into the four fields.  We model the parsed
object; `Timerange.entry` is the string it was built from. -/
structure Timerange where
  hstart : Int
  mstart : Int
  hend : Int
  mend : Int
  deriving Repr, DecidableEq

/-- Python `"%02d" % n`. -/
def fmt2 (n : Int) : String :=
  if 0 ≤ n ∧ n < 10 then "0" ++ toString n else toString n

/-- The `"HH:MM-HH:MM"` interval string a `Timerange` is built from. -/
def Timerange.entry (t : Timerange) : String :=
  fmt2 t.hstart ++ ":" ++ fmt2 t.mstart ++ "-" ++ fmt2 t.hend ++ ":" ++ fmt2 t.mend

/-- A time range inside a daterange as carried by a brok or stored:
Alignak serializes a plain dict, Shinken a Timerange-like object, and
after normalization it is a canonical `Timerange`. -/
inductive TimerangeVal where
  | dictShape (hstart mstart hend mend : Int)
  | objShape (hstart mstart hend mend : Int)
  | canon (t : Timerange)
  deriving Repr, DecidableEq

/-- A daterange: only its `timeranges` attribute is touched. -/
structure DaterangeV where
  timeranges : List TimerangeVal
  deriving Repr, DecidableEq

/-- Lines 1052-1060 of regenerator.py: build the `"%02d:%02d-%02d:%02d"`
entry by dict subscripting (Alignak), falling back to attribute access
on `TypeError` (Shinken objects, including an already-canonical
`Timerange`, which carries the same four attributes), and construct a
`Timerange` from the entry string. -/
def normalizeTimerange : TimerangeVal → Timerange
  | .dictShape hs ms he me => ⟨hs, ms, he, me⟩
  | .objShape hs ms he me => ⟨hs, ms, he, me⟩
  | .canon t => t

/-! ## Entities -/

/-- A `Command` store entity; `scalars` stands for the remaining plain
attributes copied verbatim by `update_element`. -/
structure Command where
  id : PyVal
  uuid : PyVal
  command_name : String
  instance_id : Int
  scalars : List (String × PyVal)
  deriving Repr, DecidableEq

/-- A `NotificationWay` object (store entity, or embedded in a Shinken
contact brok). -/
structure NWObj where
  id : PyVal
  uuid : PyVal
  notificationway_name : String
  host_notification_commands : List CcItem
  service_notification_commands : List CcItem
  host_notification_period : TpField
  service_notification_period : TpField
  scalars : List (String × PyVal)
  deriving Repr, DecidableEq

/-- Entry of a contact's `notificationways` list: an Alignak uuid
string, a Shinken embedded `NotificationWay`, or a linked store
notification way (we record its id and name). -/
inductive NwItem where
  | uuidStr (s : String)
  | obj (nw : NWObj)
  | ref (nid : PyVal) (nm : String)
  deriving Repr, DecidableEq

/-- A contact's `notificationways` attribute; `notList` covers the
badly-formed non-list shape the handler checks for. -/
inductive NwField where
  | pyList (items : List NwItem)
  | notList (v : PyVal)
  deriving Repr, DecidableEq

/-- A `Contact` store entity (globally shared, keyed by name). -/
structure Contact where
  id : PyVal
  uuid : PyVal
  contact_name : String
  instance_id : Int
  notificationways : NwField
  scalars : List (String × PyVal)
  deriving Repr, DecidableEq

/-- A `Timeperiod` store entity (globally shared, keyed by name). -/
structure Timeperiod where
  id : PyVal
  uuid : PyVal
  timeperiod_name : String
  instance_id : Int
  dateranges : List DaterangeV
  exclude : List ExItem
  scalars : List (String × PyVal)
  deriving Repr, DecidableEq

/-- A `Host` entity (staged, then store).  `services` holds the linked
back-references to this host's services as `(id, service_description)`
pairs — `find_service_by_name` scans them by description. -/
structure Host where
  id : PyVal
  uuid : PyVal
  host_name : String
  instance_id : Int
  hostgroups : HgField
  check_command : CcField
  event_handler : CcField
  notification_period : TpNameField
  check_period : TpNameField
  maintenance_period : TpNameField
  contacts : List CnItem
  tags : List String
  realm_name : Option String
  parents : DepField
  childs : DepField
  parent_dependencies : DepField
  child_dependencies : DepField
  impacts : DepField
  source_problems : DepField
  services : List (PyVal × String)
  downtimes : DcColl
  comments : DcColl
  state : Option PyVal
  scalars : List (String × PyVal)
  deriving Repr, DecidableEq

/-- A `Service` entity.  `host` is the linked back-reference to the
owning store host (its id), `none` before linking or if unresolved. -/
structure Service where
  id : PyVal
  uuid : PyVal
  host_name : String
  service_description : String
  instance_id : Int
  display_name : Option PyVal
  servicegroups : List SgItem
  check_command : CcField
  event_handler : CcField
  notification_period : TpNameField
  check_period : TpNameField
  maintenance_period : TpNameField
  contacts : List CnItem
  tags : List String
  host : Option PyVal
  impacts : DepField
  source_problems : DepField
  parent_dependencies : DepField
  child_dependencies : DepField
  downtimes : DcColl
  comments : DcColl
  state : Option PyVal
  scalars : List (String × PyVal)
  deriving Repr, DecidableEq

/-- A `Hostgroup` entity. -/
structure Hostgroup where
  id : PyVal
  uuid : PyVal
  hostgroup_name : String
  instance_id : Int
  members : List GMember
  hostgroup_members : List PyVal
  scalars : List (String × PyVal)
  deriving Repr, DecidableEq

/-- A `Servicegroup` entity. -/
structure Servicegroup where
  id : PyVal
  uuid : PyVal
  servicegroup_name : String
  instance_id : Int
  members : List GMember
  servicegroup_members : List PyVal
  scalars : List (String × PyVal)
  deriving Repr, DecidableEq

/-- A `Contactgroup` entity. -/
structure Contactgroup where
  id : PyVal
  uuid : PyVal
  contactgroup_name : String
  instance_id : Int
  members : List GMember
  contactgroup_members : List PyVal
  scalars : List (String × PyVal)
  deriving Repr, DecidableEq

/-- The per-instance `Config` record (`manage_program_status_brok`). -/
structure ConfigV where
  id : PyVal
  uuid : PyVal
  instance_id : Int
  timestamp : Nat
  scalars : List (String × PyVal)
  deriving Repr, DecidableEq

/-- The outbound `NeedData` message.  The Alignak and Shinken `Message`
constructors (lines 1187-1190) differ only in an extra `id=0` argument;
both carry the same type / data / source payload. -/
structure Message where
  mtype : String
  full_instance_id : Int
  source : String
  deriving Repr, DecidableEq

/-- The whole `Regenerator` state (its `__init__` attributes).  Python
dicts are association lists in insertion order; the staged `inp_*`
collections are keyed by instance id, their inner containers keyed by
the entity's `id` attribute.  `from_q = none` models no external queue
loaded; `some msgs` records the messages put on the queue so far. -/
structure RState where
  configs : List (Int × ConfigV)
  hosts : List Host
  services : List Service
  hostgroups : List Hostgroup
  servicegroups : List Servicegroup
  contactgroups : List Contactgroup
  contacts : List Contact
  timeperiods : List Timeperiod
  commands : List Command
  notificationways : List NWObj
  schedulers : List (String × List (String × PyVal))
  pollers : List (String × List (String × PyVal))
  reactionners : List (String × List (String × PyVal))
  brokers : List (String × List (String × PyVal))
  receivers : List (String × List (String × PyVal))
  realms : List String
  tags : List (String × Nat)
  services_tags : List (String × Nat)
  inp_hosts : List (Int × List (PyVal × Host))
  inp_services : List (Int × List (PyVal × Service))
  inp_hostgroups : List (Int × List (PyVal × Hostgroup))
  inp_servicegroups : List (Int × List (PyVal × Servicegroup))
  inp_contactgroups : List (Int × List (PyVal × Contactgroup))
  last_need_data_send : Nat
  in_scheduler_mode : Bool
  from_q : Option (List Message)
  deriving Repr, DecidableEq

/-- A raised Python exception (what kind is immaterial to the state). -/
inductive PyErr where
  | keyError
  | typeError
  | attributeError
  | indexError
  | unpackError
  | unboundLocalRc
  | danglingRef
  deriving Repr, DecidableEq

/-! ## Small dict/container helpers -/

/-- Python dict lookup (`d[k]` / `d.get(k)`). -/
def dget {α β : Type} [DecidableEq α] (l : List (α × β)) (k : α) : Option β :=
  (l.find? (fun p => p.1 = k)).map (fun p => p.2)

/-- Python dict write `d[k] = v`: overwrite the entry under `k` (dict
keys are unique, so the first match is the only one), else append. -/
def dset {α β : Type} [DecidableEq α] : List (α × β) → α → β → List (α × β)
  | [], k, v => [(k, v)]
  | x :: xs, k, v => if x.1 = k then (k, v) :: xs else x :: dset xs k v

/-- Python `del d[k]`. -/
def ddel {α β : Type} [DecidableEq α] (l : List (α × β)) (k : α) : List (α × β) :=
  l.filter (fun p => p.1 ≠ k)

/-- `self.tags.get(t, 0)`. -/
def tagCount (l : List (String × Nat)) (t : String) : Nat :=
  ((dget l t).getD 0)

/-- `if t not in d: d[t] = 0` followed by `d[t] += 1`. -/
def tagIncr (l : List (String × Nat)) (t : String) : List (String × Nat) :=
  dset l t (tagCount l t + 1)

/-- `set.add` on the realm set. -/
def setAdd (l : List String) (s : String) : List String :=
  if s ∈ l then l else l ++ [s]

/-- Replace the first element satisfying `p` (the object that was looked
up and mutated in place). -/
def setFirst {α : Type} (p : α → Bool) (v : α) : List α → List α
  | [] => []
  | x :: xs => if p x then v :: xs else x :: setFirst p v xs

/-! ## Store containers: name lookup, `add_item`, `remove_item`

The Shinken `Items` containers are dicts keyed by the item's `id`
attribute plus a name index; `add_item` writes `items[item.id] = item`,
`remove_item` deletes that key, `find_by_name` resolves through the
name index. -/

def findHostByName (hs : List Host) (nm : String) : Option Host :=
  hs.find? (fun h => h.host_name = nm)

def findServiceByHostAndName (svs : List Service) (hname sdesc : String) :
    Option Service :=
  svs.find? (fun s => s.host_name = hname ∧ s.service_description = sdesc)

/-- `Services.find_by_name` resolves the full `host_name/description`. -/
def svcFullName (s : Service) : String :=
  s.host_name ++ "/" ++ s.service_description

def findServiceByFullName (svs : List Service) (nm : String) : Option Service :=
  svs.find? (fun s => svcFullName s = nm)

def findHostgroupByName (gs : List Hostgroup) (nm : String) : Option Hostgroup :=
  gs.find? (fun g => g.hostgroup_name = nm)

def findServicegroupByName (gs : List Servicegroup) (nm : String) :
    Option Servicegroup :=
  gs.find? (fun g => g.servicegroup_name = nm)

def findContactgroupByName (gs : List Contactgroup) (nm : String) :
    Option Contactgroup :=
  gs.find? (fun g => g.contactgroup_name = nm)

def findContactByName (cs : List Contact) (nm : String) : Option Contact :=
  cs.find? (fun c => c.contact_name = nm)

def findTimeperiodByName (tps : List Timeperiod) (nm : String) :
    Option Timeperiod :=
  tps.find? (fun tp => tp.timeperiod_name = nm)

def findCommandByName (cs : List Command) (nm : String) : Option Command :=
  cs.find? (fun c => c.command_name = nm)

def findNWByName (ns : List NWObj) (nm : String) : Option NWObj :=
  ns.find? (fun n => n.notificationway_name = nm)

/-- `add_item`: `items[item.id] = item` — replace the entry under the
same id, else insert. -/
def addByIdHost (hs : List Host) (h : Host) : List Host :=
  if hs.any (fun x => x.id = h.id) then
    hs.map (fun x => if x.id = h.id then h else x)
  else hs ++ [h]

def addByIdService (l : List Service) (v : Service) : List Service :=
  if l.any (fun x => x.id = v.id) then
    l.map (fun x => if x.id = v.id then v else x)
  else l ++ [v]

def addByIdHostgroup (l : List Hostgroup) (v : Hostgroup) : List Hostgroup :=
  if l.any (fun x => x.id = v.id) then
    l.map (fun x => if x.id = v.id then v else x)
  else l ++ [v]

def addByIdServicegroup (l : List Servicegroup) (v : Servicegroup) :
    List Servicegroup :=
  if l.any (fun x => x.id = v.id) then
    l.map (fun x => if x.id = v.id then v else x)
  else l ++ [v]

def addByIdContactgroup (l : List Contactgroup) (v : Contactgroup) :
    List Contactgroup :=
  if l.any (fun x => x.id = v.id) then
    l.map (fun x => if x.id = v.id then v else x)
  else l ++ [v]

def addByIdContact (l : List Contact) (v : Contact) : List Contact :=
  if l.any (fun x => x.id = v.id) then
    l.map (fun x => if x.id = v.id then v else x)
  else l ++ [v]

def addByIdTimeperiod (l : List Timeperiod) (v : Timeperiod) : List Timeperiod :=
  if l.any (fun x => x.id = v.id) then
    l.map (fun x => if x.id = v.id then v else x)
  else l ++ [v]

def addByIdCommand (l : List Command) (v : Command) : List Command :=
  if l.any (fun x => x.id = v.id) then
    l.map (fun x => if x.id = v.id then v else x)
  else l ++ [v]

def addByIdNW (l : List NWObj) (v : NWObj) : List NWObj :=
  if l.any (fun x => x.id = v.id) then
    l.map (fun x => if x.id = v.id then v else x)
  else l ++ [v]

/-- `remove_item`: delete the entry keyed by the item's id. -/
def removeByIdHost (hs : List Host) (h : Host) : List Host :=
  hs.filter (fun x => x.id ≠ h.id)

def removeByIdService (l : List Service) (v : Service) : List Service :=
  l.filter (fun x => x.id ≠ v.id)

/-! ## `linkify_*` helpers (regenerator.py lines 465-617)

Store objects carry equal `id` and `uuid` attributes (`manage_brok`
normalizes both identifier fields of the incoming data to the same
value before any handler runs), so a linked reference records the one
identifier. -/

/-- `linkify_a_command` (lines 467-478).  A falsy field (`None` or the
empty string) is reset to `None`; a non-empty bare string raises
`AttributeError` when `cc.command` is assigned on it; on a
`CommandCall`, `cc.command` is replaced by `find_by_name(cc.command)` —
which yields `None` when `cc.command` is itself a linked `Command`
object or `None` rather than a name string. -/
def linkify_a_command (cmds : List Command) : CcField → Except PyErr CcField
  | .noneV => .ok .noneV
  | .rawStr s =>
      if s = "" then .ok .noneV else .error .attributeError
  | .call c =>
      match c with
      | .byName s =>
          match findCommandByName cmds s with
          | some k => .ok (.call (.ref k.id))
          | none => .ok (.call .noneL)
      | .ref _ => .ok (.call .noneL)
      | .noneL => .ok (.call .noneL)

/-- One entry of `linkify_commands` (lines 481-497): a bare string
raises on the `cc.command` assignment; a `CommandCall` whose command is
a linked object with its identifier among the store commands is
re-linked by identifier, otherwise `find_by_name` applies. -/
def linkifyCcItem (cmds : List Command) : CcItem → Except PyErr CcItem
  | .rawStr _ => .error .attributeError
  | .call c =>
      match c with
      | .ref cid =>
          if cmds.any (fun k => k.id = cid) then .ok (.call (.ref cid))
          else .ok (.call .noneL)
      | .byName s =>
          match findCommandByName cmds s with
          | some k => .ok (.call (.ref k.id))
          | none => .ok (.call .noneL)
      | .noneL => .ok (.call .noneL)

/-- `linkify_commands` (lines 481-497): an empty (falsy) list is reset
to the empty list, otherwise each entry is re-linked in order. -/
def linkify_commands (cmds : List Command) (v : List CcItem) :
    Except PyErr (List CcItem) :=
  if v.isEmpty then .ok [] else v.mapM (linkifyCcItem cmds)

/-- `linkify_a_timeperiod` (lines 501-514).  A falsy value is reset to
`None`; a uuid string that is a key of the store container resolves
directly; otherwise `t.timeperiod_name` is read (raising
`AttributeError` on a string) and resolved by name — an object is never
a key of the id-keyed container, so objects always take the name
path. -/
def linkify_a_timeperiod (tps : List Timeperiod) : TpField → Except PyErr TpField
  | .noneV => .ok .noneV
  | .uuidStr s =>
      if s = "" then .ok .noneV
      else
        match tps.find? (fun tp => tp.id = .str s) with
        | some tp => .ok (.ref tp.id tp.timeperiod_name)
        | none => .error .attributeError
  | .stub nm =>
      match findTimeperiodByName tps nm with
      | some tp => .ok (.ref tp.id tp.timeperiod_name)
      | none => .ok .noneV
  | .ref _ nm =>
      match findTimeperiodByName tps nm with
      | some tp => .ok (.ref tp.id tp.timeperiod_name)
      | none => .ok .noneV

/-- `linkify_a_timeperiod_by_name` (lines 517-523): the value is a name
string; `find_by_name` of a non-string (an already linked Timeperiod)
finds nothing, so such a field resolves to `None`. -/
def linkify_a_timeperiod_by_name (tps : List Timeperiod) :
    TpNameField → TpNameField
  | .noneV => .noneV
  | .nm s =>
      if s = "" then .noneV
      else
        match findTimeperiodByName tps s with
        | some tp => .ref tp.id
        | none => .noneV
  | .ref _ => .noneV

/-- `linkify_contacts` (lines 527-543): an empty (falsy) list is left
alone; each name is resolved by name then by uuid scan, unresolved
entries are dropped; an already-linked Contact object matches neither
comparison and is dropped. -/
def linkify_contacts (cs : List Contact) (v : List CnItem) : List CnItem :=
  if v.isEmpty then v
  else
    v.filterMap fun it =>
      match it with
      | .strv s =>
          match findContactByName cs s with
          | some c => some (.ref c.id)
          | none => (cs.find? (fun c => c.uuid = .str s)).map (fun c => .ref c.id)
      | .ref _ => none

/-- The dict branch of `linkify_dict_srv_and_hosts`: each entry of
`v['services']` is split on `'/'` (`elts[1]` raises `IndexError` when
there is no slash) and resolved; then each of `v['hosts']` by name. -/
def depDictServices (svs : List Service) : List String → Except PyErr (List DepItem)
  | [] => .ok []
  | nme :: rest =>
      match nme.splitOn "/" with
      | hname :: sdesc :: _ =>
          (depDictServices svs rest).map fun tail =>
            match findServiceByHostAndName svs hname sdesc with
            | some s => .sref s.id :: tail
            | none => tail
      | _ => .error .indexError

/-- `linkify_dict_srv_and_hosts` (lines 546-577).  A falsy value yields
the empty list.  The list branch runs unless the list contains both the
strings `'hosts'` and `'services'` — in which case the dict branch
subscripts the list and raises `TypeError`.  List entries resolve by
uuid against hosts then services; already-linked objects match no uuid
and are dropped.  The dict branch resolves `v['services']` (full
names) then `v['hosts']` (names). -/
def linkify_dict_srv_and_hosts (hs : List Host) (svs : List Service) :
    DepField → Except PyErr (List DepItem)
  | .pyList items =>
      if items.isEmpty then .ok []
      else if items.contains (DepItem.uuidStr "hosts") ∧
              items.contains (DepItem.uuidStr "services") then
        .error .typeError
      else
        .ok (items.filterMap fun it =>
          match it with
          | .uuidStr u =>
              match hs.find? (fun h => h.uuid = .str u) with
              | some h => some (.href h.id)
              | none => (svs.find? (fun s => s.uuid = .str u)).map
                  (fun s => .sref s.id)
          | .href _ => none
          | .sref _ => none)
  | .pyDict hn sn =>
      (depDictServices svs sn).map fun svcPart =>
        svcPart ++ hn.filterMap fun nme =>
          (findHostByName hs nme).map (fun h => DepItem.href h.id)

/-- `linkify_host_and_hosts` (lines 579-597): entries resolve by host
name then by host uuid; iterating the dict shape iterates its two key
strings. -/
def hostAndHostsEntry (hs : List Host) (s : String) : Option DepItem :=
  match findHostByName hs s with
  | some h => some (.href h.id)
  | none => (hs.find? (fun h => h.uuid = .str s)).map (fun h => .href h.id)

def linkify_host_and_hosts (hs : List Host) : DepField → List DepItem
  | .pyList items =>
      if items.isEmpty then []
      else
        items.filterMap fun it =>
          match it with
          | .uuidStr s => hostAndHostsEntry hs s
          | .href _ => none
          | .sref _ => none
  | .pyDict _ _ => ["hosts", "services"].filterMap (hostAndHostsEntry hs)

/-- `linkify_service_and_services` (lines 599-617): like the host
version, resolving by service full name then by service uuid. -/
def serviceAndServicesEntry (svs : List Service) (s : String) : Option DepItem :=
  match findServiceByFullName svs s with
  | some sv => some (.sref sv.id)
  | none => (svs.find? (fun sv => sv.uuid = .str s)).map (fun sv => .sref sv.id)

def linkify_service_and_services (svs : List Service) : DepField → List DepItem
  | .pyList items =>
      if items.isEmpty then []
      else
        items.filterMap fun it =>
          match it with
          | .uuidStr s => serviceAndServicesEntry svs s
          | .href _ => none
          | .sref _ => none
  | .pyDict _ _ => ["hosts", "services"].filterMap (serviceAndServicesEntry svs)

/-- `linkify_commands` over a list with Python's in-place, per-item
mutation: on a raising item the already-processed prefix keeps its new
values and the failing item and the rest keep their old ones. -/
def linkifyCcList (cmds : List Command) : List CcItem →
    List CcItem × Option PyErr
  | [] => ([], none)
  | x :: xs =>
      match linkifyCcItem cmds x with
      | .error e => (x :: xs, some e)
      | .ok y =>
          let r := linkifyCcList cmds xs
          (y :: r.1, r.2)

/-- `linkify_commands` (lines 481-497): a falsy (empty) list is reset
to the empty list; otherwise each entry is re-linked in order. -/
def linkifyCmdList (cmds : List Command) (v : List CcItem) :
    List CcItem × Option PyErr :=
  if v.isEmpty then ([], none) else linkifyCcList cmds v

/-! ## Brok payload data

The typed contents of `brok.data` per brok type: each record lists the
keys the handler reads or links; `scalars` stands for the remaining
plain keys, which `update_element` copies verbatim.  The normalized
`data['id']` / `data['uuid']` values are passed to each handler
separately (as `did` / `duid`). -/

structure ProgramData where
  instance_id : Int
  scalars : List (String × PyVal)
  deriving Repr, DecidableEq

structure HostData where
  host_name : String
  instance_id : Int
  hostgroups : HgField
  check_command : CcField
  event_handler : CcField
  notification_period : TpNameField
  check_period : TpNameField
  maintenance_period : TpNameField
  contacts : List CnItem
  tags : List String
  realm_name : Option String
  parents : DepField
  childs : DepField
  parent_dependencies : DepField
  child_dependencies : DepField
  impacts : DepField
  source_problems : DepField
  downtimes : DcColl
  comments : DcColl
  state : Option PyVal
  scalars : List (String × PyVal)
  deriving Repr, DecidableEq

/-- The `display_name` value: the handler checks `isinstance(_, list)`. -/
inductive DisplayVal where
  | strv (v : PyVal)
  | listShape (xs : List PyVal)
  deriving Repr, DecidableEq

structure ServiceData where
  host_name : String
  service_description : String
  instance_id : Int
  display_name : DisplayVal
  servicegroups : List SgItem
  check_command : CcField
  event_handler : CcField
  notification_period : TpNameField
  check_period : TpNameField
  maintenance_period : TpNameField
  contacts : List CnItem
  tags : List String
  impacts : DepField
  source_problems : DepField
  parent_dependencies : DepField
  child_dependencies : DepField
  downtimes : DcColl
  comments : DcColl
  state : Option PyVal
  scalars : List (String × PyVal)
  deriving Repr, DecidableEq

structure HostgroupData where
  hostgroup_name : String
  instance_id : Int
  members : Option (List GMember)
  hostgroup_members : Option (List PyVal)
  scalars : List (String × PyVal)
  deriving Repr, DecidableEq

structure ServicegroupData where
  servicegroup_name : String
  instance_id : Int
  members : Option (List GMember)
  servicegroup_members : Option (List PyVal)
  scalars : List (String × PyVal)
  deriving Repr, DecidableEq

structure ContactgroupData where
  contactgroup_name : String
  instance_id : Int
  members : Option (List GMember)
  contactgroup_members : Option (List PyVal)
  scalars : List (String × PyVal)
  deriving Repr, DecidableEq

structure ContactData where
  contact_name : String
  instance_id : Int
  notificationways : NwField
  scalars : List (String × PyVal)
  deriving Repr, DecidableEq

structure TpData where
  timeperiod_name : String
  instance_id : Int
  dateranges : List DaterangeV
  exclude : List ExItem
  scalars : List (String × PyVal)
  deriving Repr, DecidableEq

structure CommandData where
  command_name : String
  instance_id : Int
  scalars : List (String × PyVal)
  deriving Repr, DecidableEq

structure NWData where
  notificationway_name : String
  instance_id : Int
  host_notification_commands : List CcItem
  service_notification_commands : List CcItem
  host_notification_period : TpField
  service_notification_period : TpField
  scalars : List (String × PyVal)
  deriving Repr, DecidableEq

/-- Peer-daemon link broks (`initial_/update_<daemon>_status`). -/
structure PeerData where
  name : String
  scalars : List (String × PyVal)
  deriving Repr, DecidableEq

/-- `update_host_status` data: `Option` marks whether the key is
present (the handler `del`s a fixed key set, raising `KeyError` on an
absent key, and reads `topology_change` and `host_name` by
subscript). -/
structure UpdHostData where
  host_name : Option String
  topology_change : Option PyVal
  uuid : Option PyVal
  check_command : Option PyVal
  hostgroups : Option PyVal
  contacts : Option PyVal
  notification_period : Option PyVal
  contact_groups : Option PyVal
  check_period : Option PyVal
  event_handler : Option PyVal
  maintenance_period : Option PyVal
  realm : Option PyVal
  customs : Option PyVal
  escalations : Option PyVal
  parents : Option DepField
  child_dependencies : Option DepField
  parent_dependencies : Option DepField
  childs : Option DepField
  impacts : Option DepField
  source_problems : Option DepField
  downtimes : Option DcColl
  comments : Option DcColl
  state : Option PyVal
  scalars : List (String × PyVal)
  deriving Repr, DecidableEq

/-- `host_check_result` / `host_next_schedule` data. -/
structure HostCheckData where
  host_name : String
  state : Option PyVal
  scalars : List (String × PyVal)
  deriving Repr, DecidableEq

/-- `service_check_result` / `service_next_schedule` data. -/
structure ServiceCheckData where
  host_name : String
  service_description : String
  state : Option PyVal
  scalars : List (String × PyVal)
  deriving Repr, DecidableEq

/-! ## `update_element` images

`update_element(element, data)` (lines 206-210) iterates the data keys
and `setattr`s each onto the element; `data` is always a dict here, so
the `data.uuid` branch never fires.  On a fresh element this fully
determines the fields below; on an existing element every data key
overwrites and the element's other attributes survive — for the typed
fields the data records carry every key, so only `scalars` needs a
merge (and `Config.timestamp`, which is not a data key, survives). -/

def mergeScalars (base upd : List (String × PyVal)) : List (String × PyVal) :=
  upd.foldl (fun acc p => dset acc p.1 p.2) base

def buildCommand (did duid : PyVal) (d : CommandData) : Command :=
  { id := did, uuid := duid, command_name := d.command_name,
    instance_id := d.instance_id, scalars := d.scalars }

def resetCommand (old : Command) (did duid : PyVal) (d : CommandData) : Command :=
  { buildCommand did duid d with scalars := mergeScalars old.scalars d.scalars }

def buildContact (did duid : PyVal) (d : ContactData) : Contact :=
  { id := did, uuid := duid, contact_name := d.contact_name,
    instance_id := d.instance_id, notificationways := d.notificationways,
    scalars := d.scalars }

def resetContact (old : Contact) (did duid : PyVal) (d : ContactData) : Contact :=
  { buildContact did duid d with scalars := mergeScalars old.scalars d.scalars }

def buildTimeperiod (did duid : PyVal) (d : TpData) : Timeperiod :=
  { id := did, uuid := duid, timeperiod_name := d.timeperiod_name,
    instance_id := d.instance_id, dateranges := d.dateranges,
    exclude := d.exclude, scalars := d.scalars }

def resetTimeperiod (old : Timeperiod) (did duid : PyVal) (d : TpData) :
    Timeperiod :=
  { buildTimeperiod did duid d with scalars := mergeScalars old.scalars d.scalars }

def buildNW (did duid : PyVal) (d : NWData) : NWObj :=
  { id := did, uuid := duid, notificationway_name := d.notificationway_name,
    host_notification_commands := d.host_notification_commands,
    service_notification_commands := d.service_notification_commands,
    host_notification_period := d.host_notification_period,
    service_notification_period := d.service_notification_period,
    scalars := d.scalars }

def resetNW (old : NWObj) (did duid : PyVal) (d : NWData) : NWObj :=
  { buildNW did duid d with scalars := mergeScalars old.scalars d.scalars }

/-- `manage_program_status_brok`: `c = Config(); c.timestamp = now;
update_element(c, data)` — the data carries no `timestamp` key. -/
def buildConfig (now : Nat) (did duid : PyVal) (d : ProgramData) : ConfigV :=
  { id := did, uuid := duid, instance_id := d.instance_id, timestamp := now,
    scalars := d.scalars }

def resetConfig (old : ConfigV) (did duid : PyVal) (d : ProgramData) : ConfigV :=
  { old with id := did, uuid := duid, instance_id := d.instance_id,
             scalars := mergeScalars old.scalars d.scalars }

/-- `update_element` on a fresh `Host({})`; the class default supplies
the empty `services` back-reference list. -/
def buildHost (did duid : PyVal) (d : HostData) : Host :=
  { id := did, uuid := duid, host_name := d.host_name,
    instance_id := d.instance_id, hostgroups := d.hostgroups,
    check_command := d.check_command, event_handler := d.event_handler,
    notification_period := d.notification_period,
    check_period := d.check_period,
    maintenance_period := d.maintenance_period, contacts := d.contacts,
    tags := d.tags, realm_name := d.realm_name, parents := d.parents,
    childs := d.childs, parent_dependencies := d.parent_dependencies,
    child_dependencies := d.child_dependencies, impacts := d.impacts,
    source_problems := d.source_problems, services := [],
    downtimes := d.downtimes, comments := d.comments, state := d.state,
    scalars := d.scalars }

def buildService (did duid : PyVal) (d : ServiceData) : Service :=
  { id := did, uuid := duid, host_name := d.host_name,
    service_description := d.service_description,
    instance_id := d.instance_id,
    display_name := match d.display_name with
      | .strv v => some v
      | .listShape _ => some (.str d.service_description),
    servicegroups := d.servicegroups, check_command := d.check_command,
    event_handler := d.event_handler,
    notification_period := d.notification_period,
    check_period := d.check_period,
    maintenance_period := d.maintenance_period, contacts := d.contacts,
    tags := d.tags, host := none, impacts := d.impacts,
    source_problems := d.source_problems,
    parent_dependencies := d.parent_dependencies,
    child_dependencies := d.child_dependencies, downtimes := d.downtimes,
    comments := d.comments, state := d.state, scalars := d.scalars }

/-- `sub_groups = [] if (sub_groups and not sub_groups[0]) else sub_groups`. -/
def subGroupsFix (l : List PyVal) : List PyVal :=
  match l with
  | [] => []
  | x :: _ => if !x.truthy then [] else l

/-- `update_element` on a fresh `Hostgroup([])` followed by the
`getattr(..., [])` defaulting and sub-group fixing of lines 785-791. -/
def buildHostgroup (did duid : PyVal) (d : HostgroupData) : Hostgroup :=
  { id := did, uuid := duid, hostgroup_name := d.hostgroup_name,
    instance_id := d.instance_id, members := d.members.getD [],
    hostgroup_members := subGroupsFix (d.hostgroup_members.getD []),
    scalars := d.scalars }

def buildServicegroup (did duid : PyVal) (d : ServicegroupData) : Servicegroup :=
  { id := did, uuid := duid, servicegroup_name := d.servicegroup_name,
    instance_id := d.instance_id, members := d.members.getD [],
    servicegroup_members := subGroupsFix (d.servicegroup_members.getD []),
    scalars := d.scalars }

def buildContactgroup (did duid : PyVal) (d : ContactgroupData) : Contactgroup :=
  { id := did, uuid := duid, contactgroup_name := d.contactgroup_name,
    instance_id := d.instance_id, members := d.members.getD [],
    contactgroup_members := subGroupsFix (d.contactgroup_members.getD []),
    scalars := d.scalars }

/-! ## Handlers: initial part -/

/-- The Downtime/Comment relationship rebuild (lines 736-749 and the
analogous blocks): a dict-shaped collection is flattened with
`.values()`, each sub-object is back-linked to its owner, its `id` is
overwritten by a present non-None `uuid`, and (for comments) it is
marked persistent. -/
def rebuildDcColl (owner : PyVal) (persist : Bool) (c : DcColl) : DcColl :=
  let l := match c with | .asDict l => l | .asList l => l
  .asList (l.map fun dc =>
    { dc with
      ref := some owner,
      id := match dc.uuid with
        | some v => if v != PyVal.none then v else dc.id
        | none => dc.id,
      persistent := persist || dc.persistent })

def rebuildDcHost (h : Host) : Host :=
  { h with downtimes := rebuildDcColl h.id false h.downtimes,
           comments := rebuildDcColl h.id true h.comments }

def rebuildDcService (s : Service) : Service :=
  { s with downtimes := rebuildDcColl s.id false s.downtimes,
           comments := rebuildDcColl s.id true s.comments }

/-- `manage_program_status_brok` (lines 636-715).  A still-fresh
(< 60 s) known instance is ignored; otherwise the Config is rebuilt,
the staging area for the instance is reset, and the instance's old
hosts/services are purged from the store.  The group cleaning
transliterates the code as written: `hg.members = []` immediately
followed by `for h in hg.members:` iterates the freshly emptied list,
so whenever any host of the restarting instance existed EVERY
hostgroup's members list is left empty (the commented-out
`h.instance_id != c_id` filter is what the surrounding log lines
describe); servicegroups likewise. -/
def manage_program_status_brok (now : Nat) (st : RState) (did duid : PyVal)
    (d : ProgramData) : RState :=
  let cid := d.instance_id
  let dup : Bool := match dget st.configs cid with
    | some c => decide (now - c.timestamp < 60)
    | none => false
  if dup then st
  else
    let c := buildConfig now did duid d
    let st1 := { st with
      inp_hosts := dset st.inp_hosts cid [],
      inp_services := dset st.inp_services cid [],
      inp_hostgroups := dset st.inp_hostgroups cid [],
      inp_servicegroups := dset st.inp_servicegroups cid [],
      inp_contactgroups := dset st.inp_contactgroups cid [],
      configs := dset st.configs cid c }
    let to_del_h := st1.hosts.filter (fun h => h.instance_id = cid)
    let to_del_srv := st1.services.filter (fun s => s.instance_id = cid)
    let st2 :=
      if to_del_h.isEmpty then st1
      else
        { st1 with
          hosts := to_del_h.foldl removeByIdHost st1.hosts,
          hostgroups := st1.hostgroups.map (fun hg => { hg with members := [] }) }
    if to_del_srv.isEmpty then st2
    else
      { st2 with
        services := to_del_srv.foldl removeByIdService st2.services,
        servicegroups := st2.servicegroups.map (fun sg => { sg with members := [] }) }

/-- `manage_initial_host_status_brok` (lines 718-756): a missing staged
collection (`KeyError`) is caught and logged, leaving the state
unchanged; otherwise the host is built from the data, its
downtimes/comments rebuilt, and staged under its id. -/
def manage_initial_host_status_brok (st : RState) (did duid : PyVal)
    (d : HostData) : RState :=
  match dget st.inp_hosts d.instance_id with
  | none => st
  | some inp =>
      let host := rebuildDcHost (buildHost did duid d)
      { st with
        inp_hosts := dset st.inp_hosts d.instance_id (dset inp host.id host) }

/-- `manage_initial_hostgroup_status_brok` (lines 760-795).  The
members defaulting and sub-group fixing happen on the staged object
after it is inserted; the insert is by reference, so building the final
object first is equivalent. -/
def manage_initial_hostgroup_status_brok (st : RState) (did duid : PyVal)
    (d : HostgroupData) : RState :=
  match dget st.inp_hostgroups d.instance_id with
  | none => st
  | some inp =>
      let hg := buildHostgroup did duid d
      { st with
        inp_hostgroups := dset st.inp_hostgroups d.instance_id (dset inp hg.id hg) }

/-- `manage_initial_service_status_brok` (lines 797-838): like the host
handler, plus the list-shaped `display_name` fix (folded into
`buildService`). -/
def manage_initial_service_status_brok (st : RState) (did duid : PyVal)
    (d : ServiceData) : RState :=
  match dget st.inp_services d.instance_id with
  | none => st
  | some inp =>
      let svc := rebuildDcService (buildService did duid d)
      { st with
        inp_services := dset st.inp_services d.instance_id (dset inp svc.id svc) }

/-- `manage_initial_servicegroup_status_brok` (lines 842-877). -/
def manage_initial_servicegroup_status_brok (st : RState) (did duid : PyVal)
    (d : ServicegroupData) : RState :=
  match dget st.inp_servicegroups d.instance_id with
  | none => st
  | some inp =>
      let sg := buildServicegroup did duid d
      { st with
        inp_servicegroups := dset st.inp_servicegroups d.instance_id (dset inp sg.id sg) }

/-- `manage_initial_contactgroup_status_brok` (lines 974-1008). -/
def manage_initial_contactgroup_status_brok (st : RState) (did duid : PyVal)
    (d : ContactgroupData) : RState :=
  match dget st.inp_contactgroups d.instance_id with
  | none => st
  | some inp =>
      let cg := buildContactgroup did duid d
      { st with
        inp_contactgroups := dset st.inp_contactgroups d.instance_id (dset inp cg.id cg) }

/-- `manage_initial_timeperiod_status_brok` (lines 1010-1067): an
existing timeperiod of that name is merely overwritten by
`update_element` with the raw data; only a newly created one has its
dateranges' time ranges normalized into canonical `Timerange`s. -/
def manage_initial_timeperiod_status_brok (st : RState) (did duid : PyVal)
    (d : TpData) : RState :=
  match findTimeperiodByName st.timeperiods d.timeperiod_name with
  | some tp =>
      { st with
        timeperiods := setFirst (fun x => x.timeperiod_name = d.timeperiod_name)
                         (resetTimeperiod tp did duid d) st.timeperiods }
  | none =>
      let tp := buildTimeperiod did duid d
      let tp := { tp with dateranges := tp.dateranges.map fun dr =>
        { dr with timeranges :=
            dr.timeranges.map (fun tr => .canon (normalizeTimerange tr)) } }
      { st with timeperiods := addByIdTimeperiod st.timeperiods tp }

/-- `manage_initial_command_status_brok` (lines 1069-1090). -/
def manage_initial_command_status_brok (st : RState) (did duid : PyVal)
    (d : CommandData) : RState :=
  match findCommandByName st.commands d.command_name with
  | some c =>
      { st with
        commands := setFirst (fun x => x.command_name = d.command_name)
                      (resetCommand c did duid d) st.commands }
  | none =>
      { st with
        commands := addByIdCommand st.commands (buildCommand did duid d) }

/-- The peer-daemon initial handlers (lines 1124-1161):
`links[name] = <fresh link from update_element>`. -/
def manage_initial_peer_status_brok (links : List (String × List (String × PyVal)))
    (did duid : PyVal) (d : PeerData) :
    List (String × List (String × PyVal)) :=
  dset links d.name (mergeScalars [("id", did), ("uuid", duid)] d.scalars)

/-- The peer-daemon update handlers (lines 1311-1355): a lookup miss
(`KeyError`) is swallowed by the bare `except`, else `update_element`. -/
def manage_update_peer_status_brok (links : List (String × List (String × PyVal)))
    (did duid : PyVal) (d : PeerData) :
    List (String × List (String × PyVal)) :=
  match dget links d.name with
  | none => links
  | some attrs =>
      dset links d.name
        (mergeScalars (mergeScalars attrs [("id", did), ("uuid", duid)]) d.scalars)

/-- The four linkify statements applied to a notification way
(lines 926-932 / 953-959 / 1113-1119), with Python's partial-mutation
semantics: fields updated before a raise keep their new values. -/
def linkifyNWSteps (cmds : List Command) (tps : List Timeperiod) (nw : NWObj) :
    NWObj × Option PyErr :=
  let r1 := linkifyCmdList cmds nw.host_notification_commands
  let nw1 := { nw with host_notification_commands := r1.1 }
  match r1.2 with
  | some e => (nw1, some e)
  | none =>
    let r2 := linkifyCmdList cmds nw1.service_notification_commands
    let nw2 := { nw1 with service_notification_commands := r2.1 }
    match r2.2 with
    | some e => (nw2, some e)
    | none =>
      match linkify_a_timeperiod tps nw2.host_notification_period with
      | .error e => (nw2, some e)
      | .ok hnp =>
        let nw3 := { nw2 with host_notification_period := hnp }
        match linkify_a_timeperiod tps nw3.service_notification_period with
        | .error e => (nw3, some e)
        | .ok snp => ({ nw3 with service_notification_period := snp }, none)

/-- `manage_initial_notificationway_status_brok` (lines 1092-1122):
upsert by name, then link its commands and periods in place. -/
def manage_initial_notificationway_status_brok (st : RState) (did duid : PyVal)
    (d : NWData) : RState × Option PyErr :=
  match findNWByName st.notificationways d.notificationway_name with
  | some nw =>
      let r := linkifyNWSteps st.commands st.timeperiods (resetNW nw did duid d)
      ({ st with
         notificationways :=
           setFirst (fun x => x.notificationway_name = d.notificationway_name)
             r.1 st.notificationways }, r.2)
  | none =>
      let r := linkifyNWSteps st.commands st.timeperiods (buildNW did duid d)
      ({ st with notificationways := addByIdNW st.notificationways r.1 }, r.2)

/-- `setattr(nw, prop, getattr(cnw, prop))` over
`NotificationWay.properties` (lines 946-948): the class properties
cover the name, command lists, periods and plain attributes, not the
identifiers. -/
def copyNWProps (nw cnw : NWObj) : NWObj :=
  { nw with
    notificationway_name := cnw.notificationway_name,
    host_notification_commands := cnw.host_notification_commands,
    service_notification_commands := cnw.service_notification_commands,
    host_notification_period := cnw.host_notification_period,
    service_notification_period := cnw.service_notification_period,
    scalars := mergeScalars nw.scalars cnw.scalars }

/-- The Alignak branch of the contact handler (lines 916-936): each
entry should be a store notification-way identifier; unknown
identifiers — and objects, which are never keys of the id-keyed
container — are skipped with a warning; known ones are linked in place
and collected. -/
def contactBranchA (st : RState) : List NwItem →
    RState × List NwItem × Option PyErr
  | [] => (st, [], none)
  | it :: rest =>
      match it with
      | .uuidStr u =>
          match st.notificationways.find? (fun nw => nw.id = .str u) with
          | none => contactBranchA st rest
          | some nw =>
              let r := linkifyNWSteps st.commands st.timeperiods nw
              let st1 := { st with
                notificationways :=
                  setFirst (fun x => x.id = PyVal.str u) r.1 st.notificationways }
              match r.2 with
              | some err => (st1, [], some err)
              | none =>
                  let rec1 := contactBranchA st1 rest
                  (rec1.1, .ref r.1.id r.1.notificationway_name :: rec1.2.1, rec1.2.2)
      | _ => contactBranchA st rest

/-- The Shinken branch of the contact handler (lines 938-967): each
entry is expected to be a `NotificationWay` object (`get_name()` raises
on a bare string); it is upserted into the store by name (overwriting
the existing object's properties), linked in place, and collected. -/
def contactBranchB (st : RState) : List NwItem →
    RState × List NwItem × Option PyErr
  | [] => (st, [], none)
  | it :: rest =>
      let cnwE : Except PyErr NWObj :=
        match it with
        | .obj nw => .ok nw
        | .ref nid _ =>
            match st.notificationways.find? (fun x => x.id = nid) with
            | some nw => .ok nw
            | none => .error .danglingRef
        | .uuidStr _ => .error .attributeError
      match cnwE with
      | .error e => (st, [], some e)
      | .ok cnw =>
          let nwname := cnw.notificationway_name
          let st1 :=
            match findNWByName st.notificationways nwname with
            | some nw =>
                { st with
                  notificationways :=
                    setFirst (fun x => x.notificationway_name = nwname)
                      (copyNWProps nw cnw) st.notificationways }
            | none =>
                { st with notificationways := addByIdNW st.notificationways cnw }
          match findNWByName st1.notificationways nwname with
          | none => (st1, [], some .danglingRef)
          | some target =>
              let r := linkifyNWSteps st1.commands st1.timeperiods target
              let st2 := { st1 with
                notificationways :=
                  setFirst (fun x => x.notificationway_name = nwname)
                    r.1 st1.notificationways }
              match r.2 with
              | some err => (st2, [], some err)
              | none =>
                  let rec1 := contactBranchB st2 rest
                  (rec1.1, .ref r.1.id r.1.notificationway_name :: rec1.2.1, rec1.2.2)

/-- `manage_initial_contact_status_brok` (lines 879-970): upsert the
contact by name; a truthy non-list `notificationways` aborts with only
a log; a list whose head is not a `NotificationWay` object takes the
Alignak identifier branch, anything else the Shinken object branch
(iterating a falsy non-list there raises `TypeError`); on success the
contact's `notificationways` becomes the collected linked list. -/
def manage_initial_contact_status_brok (st : RState) (did duid : PyVal)
    (d : ContactData) : RState × Option PyErr :=
  let found := (findContactByName st.contacts d.contact_name).isSome
  let c0 := match findContactByName st.contacts d.contact_name with
    | some c => resetContact c did duid d
    | none => buildContact did duid d
  let putC : RState → Contact → RState := fun s c =>
    if found then
      { s with contacts :=
          setFirst (fun x => x.contact_name = d.contact_name) c s.contacts }
    else { s with contacts := addByIdContact s.contacts c }
  let st1 := putC st c0
  match c0.notificationways with
  | .notList v =>
      if v.truthy then (st1, none)
      else (st1, some .typeError)
  | .pyList items =>
      let headIsRaw := match items with
        | .uuidStr _ :: _ => true
        | _ => false
      if headIsRaw then
        let r := contactBranchA st1 items
        match r.2.2 with
        | some err => (r.1, some err)
        | none => (putC r.1 { c0 with notificationways := .pyList r.2.1 }, none)
      else
        let r := contactBranchB st1 items
        match r.2.2 with
        | some err => (r.1, some err)
        | none => (putC r.1 { c0 with notificationways := .pyList r.2.1 }, none)

/-! ## Handlers: status update part -/

/-- `manage_update_program_status_brok` (lines 1176-1197): an unknown
instance triggers a rate-limited `NeedData` request — gated by the
single, global `last_need_data_send` timestamp and a loaded external
queue — and nothing else; a known instance's Config is updated in
place (its `timestamp` attribute is not a data key and survives). -/
def manage_update_program_status_brok (now : Nat) (st : RState)
    (did duid : PyVal) (d : ProgramData) : RState :=
  let cid := d.instance_id
  match dget st.configs cid with
  | none =>
      if now - st.last_need_data_send > 60 ∧ st.from_q.isSome then
        { st with
          from_q := st.from_q.map
            (fun q => q ++ [{ mtype := "NeedData", full_instance_id := cid,
                              source := "WebUI" }]),
          last_need_data_send := now }
      else st
  | some c =>
      { st with configs := dset st.configs cid (resetConfig c did duid d) }

/-- The always-deleted keys of `manage_update_host_status_brok`
(lines 1203-1206): `del data[prop]` raises `KeyError` on a missing
key. -/
def updHostCleanOk (d : UpdHostData) : Bool :=
  d.uuid.isSome && d.check_command.isSome && d.hostgroups.isSome &&
  d.contacts.isSome && d.notification_period.isSome &&
  d.contact_groups.isSome && d.check_period.isSome &&
  d.event_handler.isSome && d.maintenance_period.isSome &&
  d.realm.isSome && d.customs.isSome && d.escalations.isSome

/-- The keys additionally deleted when no topology change is flagged
(line 1213). -/
def updHostTopoKeysOk (d : UpdHostData) : Bool :=
  d.parents.isSome && d.child_dependencies.isSome &&
  d.parent_dependencies.isSome

/-- `manage_update_host_status_brok` (lines 1200-1255): strip the
relationship-bearing keys (plus, without a topology change, the
parent/child/dependency keys) from the data, locate the host by name
(silently dropping the event if absent), overwrite its remaining
fields, always re-link impacts and source problems, re-link the
topology fields only when flagged, and rebuild downtimes/comments. -/
def manage_update_host_status_brok (st : RState) (did duid : PyVal)
    (d : UpdHostData) : RState × Option PyErr :=
  match d.topology_change with
  | none => (st, some .keyError)
  | some topo =>
    if !(updHostCleanOk d) then (st, some .keyError)
    else if !topo.truthy && !(updHostTopoKeysOk d) then (st, some .keyError)
    else
      match d.host_name with
      | none => (st, some .keyError)
      | some hname =>
        match findHostByName st.hosts hname with
        | none => (st, none)
        | some host =>
          let host1 := { host with
            id := did,
            host_name := hname,
            state := match d.state with | some v => some v | none => host.state,
            impacts := d.impacts.getD host.impacts,
            source_problems := d.source_problems.getD host.source_problems,
            childs := d.childs.getD host.childs,
            parents :=
              if topo.truthy then d.parents.getD host.parents else host.parents,
            parent_dependencies :=
              if topo.truthy then d.parent_dependencies.getD host.parent_dependencies
              else host.parent_dependencies,
            child_dependencies :=
              if topo.truthy then d.child_dependencies.getD host.child_dependencies
              else host.child_dependencies,
            downtimes := d.downtimes.getD host.downtimes,
            comments := d.comments.getD host.comments,
            scalars := mergeScalars host.scalars d.scalars }
          let put : RState → Host → RState := fun s h =>
            { s with hosts := setFirst (fun x => x.host_name = hname) h s.hosts }
          let st1 := put st host1
          match linkify_dict_srv_and_hosts st1.hosts st1.services host1.impacts with
          | .error e => (st1, some e)
          | .ok imp =>
            let host2 := { host1 with impacts := .pyList imp }
            let st2 := put st1 host2
            match linkify_dict_srv_and_hosts st2.hosts st2.services
                host2.source_problems with
            | .error e => (st2, some e)
            | .ok sp =>
              let host3 := { host2 with source_problems := .pyList sp }
              let st3 := put st2 host3
              if topo.truthy then
                let host4 := { host3 with
                  parents := .pyList (linkify_host_and_hosts st3.hosts host3.parents) }
                let host5 := { host4 with
                  childs := .pyList (linkify_host_and_hosts st3.hosts host4.childs) }
                let st5 := put st3 host5
                match linkify_dict_srv_and_hosts st5.hosts st5.services
                    host5.parent_dependencies with
                | .error e => (st5, some e)
                | .ok pd =>
                  let host6 := { host5 with parent_dependencies := .pyList pd }
                  let st6 := put st5 host6
                  match linkify_dict_srv_and_hosts st6.hosts st6.services
                      host6.child_dependencies with
                  | .error e => (st6, some e)
                  | .ok cd =>
                    let host7 := rebuildDcHost
                      { host6 with child_dependencies := .pyList cd }
                    (put st6 host7, none)
              else (put st3 (rebuildDcHost host3), none)

/-- `update_service_status` data, like `UpdHostData`: `Option` marks
key presence for the `del` statements and subscript reads. -/
structure UpdServiceData where
  host_name : Option String
  service_description : Option String
  topology_change : Option PyVal
  uuid : Option PyVal
  check_command : Option PyVal
  servicegroups : Option PyVal
  contacts : Option PyVal
  notification_period : Option PyVal
  contact_groups : Option PyVal
  check_period : Option PyVal
  event_handler : Option PyVal
  maintenance_period : Option PyVal
  customs : Option PyVal
  escalations : Option PyVal
  child_dependencies : Option DepField
  parent_dependencies : Option DepField
  impacts : Option DepField
  source_problems : Option DepField
  downtimes : Option DcColl
  comments : Option DcColl
  state : Option PyVal
  scalars : List (String × PyVal)
  deriving Repr, DecidableEq

/-- The always-deleted keys of `manage_update_service_status_brok`
(lines 1261-1264). -/
def updSvcCleanOk (d : UpdServiceData) : Bool :=
  d.uuid.isSome && d.check_command.isSome && d.servicegroups.isSome &&
  d.contacts.isSome && d.notification_period.isSome &&
  d.contact_groups.isSome && d.check_period.isSome &&
  d.event_handler.isSome && d.maintenance_period.isSome &&
  d.customs.isSome && d.escalations.isSome

def updSvcTopoKeysOk (d : UpdServiceData) : Bool :=
  d.child_dependencies.isSome && d.parent_dependencies.isSome

/-- `manage_update_service_status_brok` (lines 1258-1309), the service
twin of the host update handler (topology fields re-linked through
`linkify_dict_srv_and_hosts` here). -/
def manage_update_service_status_brok (st : RState) (did duid : PyVal)
    (d : UpdServiceData) : RState × Option PyErr :=
  match d.topology_change with
  | none => (st, some .keyError)
  | some topo =>
    if !(updSvcCleanOk d) then (st, some .keyError)
    else if !topo.truthy && !(updSvcTopoKeysOk d) then (st, some .keyError)
    else
      match d.host_name, d.service_description with
      | some hname, some sdesc =>
        (match findServiceByHostAndName st.services hname sdesc with
         | none => (st, none)
         | some svc =>
           let svc1 := { svc with
             id := did,
             host_name := hname,
             service_description := sdesc,
             state := match d.state with | some v => some v | none => svc.state,
             impacts := d.impacts.getD svc.impacts,
             source_problems := d.source_problems.getD svc.source_problems,
             parent_dependencies :=
               if topo.truthy then d.parent_dependencies.getD svc.parent_dependencies
               else svc.parent_dependencies,
             child_dependencies :=
               if topo.truthy then d.child_dependencies.getD svc.child_dependencies
               else svc.child_dependencies,
             downtimes := d.downtimes.getD svc.downtimes,
             comments := d.comments.getD svc.comments,
             scalars := mergeScalars svc.scalars d.scalars }
           let put : RState → Service → RState := fun s x =>
             let upd := setFirst
               (fun y => y.host_name = hname ∧ y.service_description = sdesc)
               x s.services
             { s with services := upd }
           let st1 := put st svc1
           match linkify_dict_srv_and_hosts st1.hosts st1.services svc1.impacts with
           | .error e => (st1, some e)
           | .ok imp =>
             let svc2 := { svc1 with impacts := .pyList imp }
             let st2 := put st1 svc2
             match linkify_dict_srv_and_hosts st2.hosts st2.services
                 svc2.source_problems with
             | .error e => (st2, some e)
             | .ok sp =>
               let svc3 := { svc2 with source_problems := .pyList sp }
               let st3 := put st2 svc3
               if topo.truthy then
                 match linkify_dict_srv_and_hosts st3.hosts st3.services
                     svc3.parent_dependencies with
                 | .error e => (st3, some e)
                 | .ok pd =>
                   let svc4 := { svc3 with parent_dependencies := .pyList pd }
                   let st4 := put st3 svc4
                   match linkify_dict_srv_and_hosts st4.hosts st4.services
                       svc4.child_dependencies with
                   | .error e => (st4, some e)
                   | .ok cd =>
                     let svc5 := rebuildDcService
                       { svc4 with child_dependencies := .pyList cd }
                     (put st4 svc5, none)
               else (put st3 (rebuildDcService svc3), none))
      | _, _ => (st, some .keyError)

/-- `manage_host_check_result_brok` (lines 1360-1371): locate the host
by name (silently dropping the event if absent) and overwrite its
fields from the data. -/
def manage_host_check_result_brok (st : RState) (did duid : PyVal)
    (d : HostCheckData) : RState :=
  match findHostByName st.hosts d.host_name with
  | none => st
  | some h =>
      let h1 := { h with
        id := did, uuid := duid,
        state := match d.state with | some v => some v | none => h.state,
        scalars := mergeScalars h.scalars d.scalars }
      { st with
        hosts := setFirst (fun x => x.host_name = d.host_name) h1 st.hosts }

/-- `manage_service_check_result_brok` (lines 1378-1389). -/
def manage_service_check_result_brok (st : RState) (did duid : PyVal)
    (d : ServiceCheckData) : RState :=
  match findServiceByHostAndName st.services d.host_name d.service_description with
  | none => st
  | some s =>
      let s1 := { s with
        id := did, uuid := duid,
        state := match d.state with | some v => some v | none => s.state,
        scalars := mergeScalars s.scalars d.scalars }
      { st with
        services := setFirst
          (fun x => x.host_name = d.host_name ∧
                    x.service_description = d.service_description)
          s1 st.services }

/-! ## The Linker: `all_done_linking` (lines 212-463) -/

/-- Linker phase 1 (lines 242-251): re-link every timeperiod's
excluded-timeperiod references by name, dropping unresolved names.
The loop mutates only `exclude` attributes, which `find_by_name` does
not consult, so the lookups may be taken against the initial list. -/
def relinkOneExclude (tps : List Timeperiod) (ex : ExItem) : Option ExItem :=
  let exname := match ex with | .stub nm => nm | .ref _ nm => nm
  (findTimeperiodByName tps exname).map
    (fun t => ExItem.ref t.id t.timeperiod_name)

def relinkTpExcludes (st : RState) : RState :=
  { st with timeperiods := st.timeperiods.map fun tp =>
      { tp with exclude := tp.exclude.filterMap (relinkOneExclude st.timeperiods) } }

/-- `for (i, xname) in g.members:` — unpacking an already-linked object
reference raises; raw pairs are returned in order. -/
def gmPairs : List GMember → Except PyErr (List (PyVal × String))
  | [] => .ok []
  | .pr i nm :: rest => (gmPairs rest).map (fun t => (i, nm) :: t)
  | .ref _ :: _ => .error .unpackError

/-- Lines 254-263: resolve a contactgroup's raw members by contact
name, dropping unresolved names (warning only). -/
def linkContactgroupMembers (cs : List Contact) (cg : Contactgroup) :
    Except PyErr Contactgroup :=
  (gmPairs cg.members).map fun prs =>
    let mems := prs.filterMap fun p =>
      (findContactByName cs p.2).map (fun c => GMember.ref c.id)
    { cg with members := mems }

def linkCGList (cs : List Contact) : List (PyVal × Contactgroup) →
    List (PyVal × Contactgroup) × Option PyErr
  | [] => ([], none)
  | (k, cg) :: rest =>
      match linkContactgroupMembers cs cg with
      | .error e => ((k, cg) :: rest, some e)
      | .ok cg' =>
          let r := linkCGList cs rest
          ((k, cg') :: r.1, r.2)

/-- Lines 266-279: merge one staged contactgroup into the store —
update the members, sub-groups and identifiers of an existing
same-named group in place, else `add_item`. -/
def mergeCG (store : List Contactgroup) (g : Contactgroup) : List Contactgroup :=
  match findContactgroupByName store g.contactgroup_name with
  | some cg =>
      setFirst (fun x => x.contactgroup_name = g.contactgroup_name)
        { cg with members := g.members,
                  contactgroup_members := g.contactgroup_members,
                  id := g.id, uuid := g.uuid } store
  | none => addByIdContactgroup store g

/-- Lines 282-291: resolve a hostgroup's raw members against the
instance's staged hosts by name. -/
def linkHostgroupMembers (inpHosts : List (PyVal × Host)) (hg : Hostgroup) :
    Except PyErr Hostgroup :=
  (gmPairs hg.members).map fun prs =>
    let mems := prs.filterMap fun p =>
      ((inpHosts.map (fun q => q.2)).find? (fun h => h.host_name = p.2)).map
        (fun h => GMember.ref h.id)
    { hg with members := mems }

def linkHGList (inpHosts : List (PyVal × Host)) : List (PyVal × Hostgroup) →
    List (PyVal × Hostgroup) × Option PyErr
  | [] => ([], none)
  | (k, hg) :: rest =>
      match linkHostgroupMembers inpHosts hg with
      | .error e => ((k, hg) :: rest, some e)
      | .ok hg' =>
          let r := linkHGList inpHosts rest
          ((k, hg') :: r.1, r.2)

/-- Lines 294-308: merge one staged hostgroup into the store. -/
def mergeHG (store : List Hostgroup) (g : Hostgroup) : List Hostgroup :=
  match findHostgroupByName store g.hostgroup_name with
  | some hg =>
      setFirst (fun x => x.hostgroup_name = g.hostgroup_name)
        { hg with members := g.members,
                  hostgroup_members := g.hostgroup_members,
                  id := g.id, uuid := g.uuid } store
  | none => addByIdHostgroup store g

/-- Lines 355-365: resolve a servicegroup's raw members — the pair's
identifier component indexes the instance's staged services. -/
def linkServicegroupMembers (inpSvcs : List (PyVal × Service)) (sg : Servicegroup) :
    Except PyErr Servicegroup :=
  (gmPairs sg.members).map fun prs =>
    let mems := prs.filterMap fun p =>
      (dget inpSvcs p.1).map (fun s => GMember.ref s.id)
    { sg with members := mems }

def linkSGList (inpSvcs : List (PyVal × Service)) : List (PyVal × Servicegroup) →
    List (PyVal × Servicegroup) × Option PyErr
  | [] => ([], none)
  | (k, sg) :: rest =>
      match linkServicegroupMembers inpSvcs sg with
      | .error e => ((k, sg) :: rest, some e)
      | .ok sg' =>
          let r := linkSGList inpSvcs rest
          ((k, sg') :: r.1, r.2)

/-- Lines 368-381: merge one staged servicegroup into the store. -/
def mergeSG (store : List Servicegroup) (g : Servicegroup) : List Servicegroup :=
  match findServicegroupByName store g.servicegroup_name with
  | some sg =>
      setFirst (fun x => x.servicegroup_name = g.servicegroup_name)
        { sg with members := g.members,
                  servicegroup_members := g.servicegroup_members,
                  id := g.id, uuid := g.uuid } store
  | none => addByIdServicegroup store g

/-- A host's `hostgroups` value as the list the loop iterates
(lines 312-315): a non-list value is comma-split into names. -/
def hostHgNames : HgField → List HgItem
  | .pyStr s => (s.splitOn ",").map HgItem.nm
  | .pyList items => items

def hgFieldTruthy : HgField → Bool
  | .pyStr s => s != ""
  | .pyList items => !items.isEmpty

/-- Lines 311-327: resolve a truthy `hostgroups` value against the
merged store groups, matching each name against the group name or the
group uuid, dropping non-matches (an already-linked group object
matches neither). -/
def linkHostGroupsField (groups : List Hostgroup) (h : Host) : Host :=
  if hgFieldTruthy h.hostgroups then
    { h with hostgroups := .pyList ((hostHgNames h.hostgroups).filterMap fun it =>
        match it with
        | .nm s =>
            (groups.find? (fun g => g.hostgroup_name = s ∨ g.uuid = .str s)).map
              (fun g => HgItem.ref g.id)
        | .ref _ => none) }
  else h

/-- Lines 311-352, one staged host: groups, commands, timeperiods,
contacts, tag counting, then replace any same-named store host. -/
def linkOneHost (st : RState) (h : Host) : RState × Host × Option PyErr :=
  let h1 := linkHostGroupsField st.hostgroups h
  match linkify_a_command st.commands h1.check_command with
  | .error e => (st, h1, some e)
  | .ok cc =>
    let h2 := { h1 with check_command := cc }
    match linkify_a_command st.commands h2.event_handler with
    | .error e => (st, h2, some e)
    | .ok eh =>
      let h3 := { h2 with event_handler := eh }
      let h4 := { h3 with
        notification_period :=
          linkify_a_timeperiod_by_name st.timeperiods h3.notification_period,
        check_period :=
          linkify_a_timeperiod_by_name st.timeperiods h3.check_period,
        maintenance_period :=
          linkify_a_timeperiod_by_name st.timeperiods h3.maintenance_period,
        contacts := linkify_contacts st.contacts h3.contacts }
      let st1 := { st with tags := h4.tags.foldl tagIncr st.tags }
      let st2 := match findHostByName st1.hosts h4.host_name with
        | some old_h =>
            { st1 with hosts := addByIdHost (removeByIdHost st1.hosts old_h) h4 }
        | none => { st1 with hosts := addByIdHost st1.hosts h4 }
      (st2, h4, none)

def linkHostsLoop (st : RState) : List (PyVal × Host) →
    RState × List (PyVal × Host) × Option PyErr
  | [] => (st, [], none)
  | (k, h) :: rest =>
      let r := linkOneHost st h
      match r.2.2 with
      | some e => (r.1, (k, r.2.1) :: rest, some e)
      | none =>
          let r2 := linkHostsLoop r.1 rest
          (r2.1, (k, r.2.1) :: r2.2.1, r2.2.2)

/-- Lines 384-425, one staged service: groups by uuid, host binding
and the host's `services` back-list (replacing a same-described
predecessor), commands, timeperiods, contacts, service-tag counting,
insertion into the store. -/
def linkOneService (st : RState) (s : Service) : RState × Service × Option PyErr :=
  let s1 :=
    if s.servicegroups.isEmpty then s
    else
      { s with servicegroups := s.servicegroups.filterMap fun it =>
          match it with
          | .uuidStr u =>
              (st.servicegroups.find? (fun g => g.uuid = .str u)).map
                (fun g => SgItem.ref g.id)
          | .ref _ => none }
  let hostOpt := findHostByName st.hosts s1.host_name
  let s2 := { s1 with host := hostOpt.map (fun h => h.id) }
  let st1 := match hostOpt with
    | some h =>
        let newSvcs :=
          match h.services.find? (fun p => p.2 = s2.service_description) with
          | some old => (h.services.erase old) ++ [(s2.id, s2.service_description)]
          | none => h.services ++ [(s2.id, s2.service_description)]
        { st with
          hosts := setFirst (fun x => x.id = h.id)
            { h with services := newSvcs } st.hosts }
    | none => st
  match linkify_a_command st1.commands s2.check_command with
  | .error e => (st1, s2, some e)
  | .ok cc =>
    let s3 := { s2 with check_command := cc }
    match linkify_a_command st1.commands s3.event_handler with
    | .error e => (st1, s3, some e)
    | .ok eh =>
      let s4 := { s3 with event_handler := eh }
      let s5 := { s4 with
        notification_period :=
          linkify_a_timeperiod_by_name st1.timeperiods s4.notification_period,
        check_period :=
          linkify_a_timeperiod_by_name st1.timeperiods s4.check_period,
        maintenance_period :=
          linkify_a_timeperiod_by_name st1.timeperiods s4.maintenance_period,
        contacts := linkify_contacts st1.contacts s4.contacts }
      let st2 := { st1 with
        services_tags := s5.tags.foldl tagIncr st1.services_tags }
      (({ st2 with services := addByIdService st2.services s5 }), s5, none)

def linkServicesLoop (st : RState) : List (PyVal × Service) →
    RState × List (PyVal × Service) × Option PyErr
  | [] => (st, [], none)
  | (k, s) :: rest =>
      let r := linkOneService st s
      match r.2.2 with
      | some e => (r.1, (k, r.2.1) :: rest, some e)
      | none =>
          let r2 := linkServicesLoop r.1 rest
          (r2.1, (k, r.2.1) :: r2.2.1, r2.2.2)

/-- Lines 428-430: collect the truthy `realm_name`s of the staged
hosts. -/
def addRealms (st : RState) (staged : List (PyVal × Host)) : RState :=
  { st with realms := staged.foldl (fun acc p =>
      match p.2.realm_name with
      | some s => if s ≠ "" then setAdd acc s else acc
      | none => acc) st.realms }

/-- Lines 434-440: re-resolve one freshly inserted host's dependency
and impact reference sets.  The lookups consult only identifiers and
names, which this phase never changes. -/
def relinkHostDeps (st : RState) (h : Host) : Host × Option PyErr :=
  match linkify_dict_srv_and_hosts st.hosts st.services h.impacts with
  | .error e => (h, some e)
  | .ok imp =>
    let h1 := { h with impacts := .pyList imp }
    match linkify_dict_srv_and_hosts st.hosts st.services h1.source_problems with
    | .error e => (h1, some e)
    | .ok sp =>
      let h2 := { h1 with source_problems := .pyList sp }
      let h3 := { h2 with
        parent_dependencies :=
          .pyList (linkify_host_and_hosts st.hosts h2.parent_dependencies),
        child_dependencies :=
          .pyList (linkify_host_and_hosts st.hosts h2.child_dependencies),
        parents := .pyList (linkify_host_and_hosts st.hosts h2.parents),
        childs := .pyList (linkify_host_and_hosts st.hosts h2.childs) }
      (h3, none)

/-- The staged host objects were inserted into the store (aliased), so
mutating one updates the store entry under its id; a staged host that a
later same-named staged host displaced is no longer reachable from the
store and its mutation is invisible there. -/
def relinkHostsLoop (st : RState) : List (PyVal × Host) →
    RState × List (PyVal × Host) × Option PyErr
  | [] => (st, [], none)
  | (k, h) :: rest =>
      let r := relinkHostDeps st h
      let st1 := { st with hosts := setFirst (fun x => x.id = h.id) r.1 st.hosts }
      match r.2 with
      | some e => (st1, (k, r.1) :: rest, some e)
      | none =>
          let r2 := relinkHostsLoop st1 rest
          (r2.1, (k, r.1) :: r2.2.1, r2.2.2)

/-- Lines 443-447: re-resolve one freshly inserted service's
dependency and impact reference sets. -/
def relinkServiceDeps (st : RState) (s : Service) : Service × Option PyErr :=
  match linkify_dict_srv_and_hosts st.hosts st.services s.impacts with
  | .error e => (s, some e)
  | .ok imp =>
    let s1 := { s with impacts := .pyList imp }
    match linkify_dict_srv_and_hosts st.hosts st.services s1.source_problems with
    | .error e => (s1, some e)
    | .ok sp =>
      let s2 := { s1 with source_problems := .pyList sp }
      let s3 := { s2 with
        parent_dependencies :=
          .pyList (linkify_service_and_services st.services s2.parent_dependencies),
        child_dependencies :=
          .pyList (linkify_service_and_services st.services s2.child_dependencies) }
      (s3, none)

def relinkServicesLoop (st : RState) : List (PyVal × Service) →
    RState × List (PyVal × Service) × Option PyErr
  | [] => (st, [], none)
  | (k, s) :: rest =>
      let r := relinkServiceDeps st s
      let st1 := { st with
        services := setFirst (fun x => x.id = s.id) r.1 st.services }
      match r.2 with
      | some e => (st1, (k, r.1) :: rest, some e)
      | none =>
          let r2 := relinkServicesLoop st1 rest
          (r2.1, (k, r.1) :: r2.2.1, r2.2.2)

/-- `all_done_linking` (lines 212-463): skipped entirely in scheduler
mode; bails out without side effects when the instance has no Config or
when any of the five staged collections is missing; otherwise runs the
eight linking phases in order and finally discards the instance's
staging area.  A raised exception leaves every mutation already
performed in place (the caller logs it). -/
def all_done_linking (st : RState) (inst_id : Int) : RState × Option PyErr :=
  if st.in_scheduler_mode then (st, none)
  else if (dget st.configs inst_id).isNone then (st, none)
  else
    match dget st.inp_hosts inst_id, dget st.inp_hostgroups inst_id,
          dget st.inp_contactgroups inst_id, dget st.inp_services inst_id,
          dget st.inp_servicegroups inst_id with
    | some inpH, some inpHG, some inpCG, some inpS, some inpSG =>
        let st := relinkTpExcludes st
        let rcg := linkCGList st.contacts inpCG
        let st := { st with
          inp_contactgroups := dset st.inp_contactgroups inst_id rcg.1 }
        (match rcg.2 with
         | some e => (st, some e)
         | none =>
          let st := { st with
            contactgroups := rcg.1.foldl (fun acc (p : PyVal × Contactgroup) => mergeCG acc p.2)
              st.contactgroups }
          let rhg := linkHGList inpH inpHG
          let st := { st with
            inp_hostgroups := dset st.inp_hostgroups inst_id rhg.1 }
          match rhg.2 with
          | some e => (st, some e)
          | none =>
            let st := { st with
              hostgroups := rhg.1.foldl (fun acc (p : PyVal × Hostgroup) => mergeHG acc p.2)
                st.hostgroups }
            let rh := linkHostsLoop st inpH
            let st := { rh.1 with
              inp_hosts := dset rh.1.inp_hosts inst_id rh.2.1 }
            match rh.2.2 with
            | some e => (st, some e)
            | none =>
              let inpH := rh.2.1
              let rsg := linkSGList inpS inpSG
              let st := { st with
                inp_servicegroups := dset st.inp_servicegroups inst_id rsg.1 }
              match rsg.2 with
              | some e => (st, some e)
              | none =>
                let st := { st with
                  servicegroups := rsg.1.foldl (fun acc (p : PyVal × Servicegroup) => mergeSG acc p.2)
                    st.servicegroups }
                let rs := linkServicesLoop st inpS
                let st := { rs.1 with
                  inp_services := dset rs.1.inp_services inst_id rs.2.1 }
                match rs.2.2 with
                | some e => (st, some e)
                | none =>
                  let inpS := rs.2.1
                  let st := addRealms st inpH
                  let rrh := relinkHostsLoop st inpH
                  let st := { rrh.1 with
                    inp_hosts := dset rrh.1.inp_hosts inst_id rrh.2.1 }
                  match rrh.2.2 with
                  | some e => (st, some e)
                  | none =>
                    let rrs := relinkServicesLoop st inpS
                    let st := { rrs.1 with
                      inp_services := dset rrs.1.inp_services inst_id rrs.2.1 }
                    match rrs.2.2 with
                    | some e => (st, some e)
                    | none =>
                        ({ st with
                           inp_hosts := ddel st.inp_hosts inst_id,
                           inp_hostgroups := ddel st.inp_hostgroups inst_id,
                           inp_contactgroups := ddel st.inp_contactgroups inst_id,
                           inp_services := ddel st.inp_services inst_id,
                           inp_servicegroups := ddel st.inp_servicegroups inst_id },
                         none))
    | _, _, _, _, _ => (st, none)

/-- `manage_initial_broks_done_brok` (lines 1165-1167). -/
def manage_initial_broks_done_brok (st : RState) (inst_id : Int) :
    RState × Option PyErr :=
  all_done_linking st inst_id

/-! ## The Brok Dispatcher: `manage_brok` (lines 150-203) -/

/-- The brok types handled by the module, one constructor per
`manage_<type>_brok` method of `Regenerator`; `log` is the silently
ignored type and `other` stands for any type without a manager. -/
inductive Payload where
  | program_status (d : ProgramData)
  | initial_host_status (d : HostData)
  | initial_hostgroup_status (d : HostgroupData)
  | initial_service_status (d : ServiceData)
  | initial_servicegroup_status (d : ServicegroupData)
  | initial_contact_status (d : ContactData)
  | initial_contactgroup_status (d : ContactgroupData)
  | initial_timeperiod_status (d : TpData)
  | initial_command_status (d : CommandData)
  | initial_notificationway_status (d : NWData)
  | initial_scheduler_status (d : PeerData)
  | initial_poller_status (d : PeerData)
  | initial_reactionner_status (d : PeerData)
  | initial_broker_status (d : PeerData)
  | initial_receiver_status (d : PeerData)
  | initial_broks_done (instance_id : Int)
  | update_program_status (d : ProgramData)
  | update_host_status (d : UpdHostData)
  | update_service_status (d : UpdServiceData)
  | update_scheduler_status (d : PeerData)
  | update_poller_status (d : PeerData)
  | update_reactionner_status (d : PeerData)
  | update_broker_status (d : PeerData)
  | update_receiver_status (d : PeerData)
  | host_check_result (d : HostCheckData)
  | host_next_schedule (d : HostCheckData)
  | service_check_result (d : ServiceCheckData)
  | service_next_schedule (d : ServiceCheckData)
  | log
  | other (btype : String)
  deriving Repr, DecidableEq

/-- The brok types suppressed in scheduler mode (`want_brok`,
lines 150-159). -/
def schedulerFiltered : Payload → Bool
  | .program_status _ => true
  | .initial_host_status _ => true
  | .initial_hostgroup_status _ => true
  | .initial_service_status _ => true
  | .initial_servicegroup_status _ => true
  | .initial_contact_status _ => true
  | .initial_contactgroup_status _ => true
  | .initial_timeperiod_status _ => true
  | .initial_command_status _ => true
  | _ => false

def want_brok (st : RState) (p : Payload) : Bool :=
  if st.in_scheduler_mode then !(schedulerFiltered p) else true

/-- Whether a `manage_<type>_brok` method exists. -/
def managed : Payload → Bool
  | .log => false
  | .other _ => false
  | _ => true

/-- A brok: its own (possibly absent) identifier attributes, its
data's identifier keys, and its typed payload. -/
structure Brok where
  ids : BrokIds
  dataIds : DataIds
  payload : Payload
  deriving Repr, DecidableEq

/-- The handler dispatch, given the normalized `data['id']` /
`data['uuid']` values; handlers that cannot raise report no error. -/
def dispatch (now : Nat) (st : RState) (did duid : PyVal) :
    Payload → RState × Option PyErr
  | .program_status d => (manage_program_status_brok now st did duid d, none)
  | .initial_host_status d => (manage_initial_host_status_brok st did duid d, none)
  | .initial_hostgroup_status d =>
      (manage_initial_hostgroup_status_brok st did duid d, none)
  | .initial_service_status d =>
      (manage_initial_service_status_brok st did duid d, none)
  | .initial_servicegroup_status d =>
      (manage_initial_servicegroup_status_brok st did duid d, none)
  | .initial_contact_status d => manage_initial_contact_status_brok st did duid d
  | .initial_contactgroup_status d =>
      (manage_initial_contactgroup_status_brok st did duid d, none)
  | .initial_timeperiod_status d =>
      (manage_initial_timeperiod_status_brok st did duid d, none)
  | .initial_command_status d =>
      (manage_initial_command_status_brok st did duid d, none)
  | .initial_notificationway_status d =>
      manage_initial_notificationway_status_brok st did duid d
  | .initial_scheduler_status d =>
      ({ st with schedulers := manage_initial_peer_status_brok st.schedulers did duid d }, none)
  | .initial_poller_status d =>
      ({ st with pollers := manage_initial_peer_status_brok st.pollers did duid d }, none)
  | .initial_reactionner_status d =>
      ({ st with reactionners := manage_initial_peer_status_brok st.reactionners did duid d }, none)
  | .initial_broker_status d =>
      ({ st with brokers := manage_initial_peer_status_brok st.brokers did duid d }, none)
  | .initial_receiver_status d =>
      ({ st with receivers := manage_initial_peer_status_brok st.receivers did duid d }, none)
  | .initial_broks_done i => manage_initial_broks_done_brok st i
  | .update_program_status d =>
      (manage_update_program_status_brok now st did duid d, none)
  | .update_host_status d => manage_update_host_status_brok st did duid d
  | .update_service_status d => manage_update_service_status_brok st did duid d
  | .update_scheduler_status d =>
      ({ st with schedulers := manage_update_peer_status_brok st.schedulers did duid d }, none)
  | .update_poller_status d =>
      ({ st with pollers := manage_update_peer_status_brok st.pollers did duid d }, none)
  | .update_reactionner_status d =>
      ({ st with reactionners := manage_update_peer_status_brok st.reactionners did duid d }, none)
  | .update_broker_status d =>
      ({ st with brokers := manage_update_peer_status_brok st.brokers did duid d }, none)
  | .update_receiver_status d =>
      ({ st with receivers := manage_update_peer_status_brok st.receivers did duid d }, none)
  | .host_check_result d => (manage_host_check_result_brok st did duid d, none)
  | .host_next_schedule d => (manage_host_check_result_brok st did duid d, none)
  | .service_check_result d => (manage_service_check_result_brok st did duid d, none)
  | .service_next_schedule d => (manage_service_check_result_brok st did duid d, none)
  | .log => (st, none)
  | .other _ => (st, none)

/-- `manage_brok` (lines 161-203): unmanaged types are dropped (only a
warning for non-`log` types); `want_brok` filters initial types in
scheduler mode; the brok's and its data's identifiers are normalized in
place; then the handler runs inside the catch-all `try`.  The `except`
branch only logs — after it, `return rc` executes with `rc` never
assigned, so a handler exception surfaces to the caller as
`UnboundLocalError`. -/
def manage_brok (fresh : String) (now : Nat) (st : RState) (b : Brok) :
    RState × Brok × Option PyErr :=
  if !(managed b.payload) then (st, b, none)
  else if !(want_brok st b.payload) then (st, b, none)
  else
    let b1 : Brok := { b with
      ids := normalize_brok_ids b.ids,
      dataIds := normalize_data_ids b.dataIds fresh }
    let did := b1.dataIds.id.getD PyVal.none
    let duid := b1.dataIds.uuid.getD PyVal.none
    let r := dispatch now st did duid b1.payload
    match r.2 with
    | none => (r.1, b1, none)
    | some _ => (r.1, b1, some .unboundLocalRc)

/-! ## Concrete fixtures -/

/-- The freshly constructed `Regenerator()` state (lines 73-112); `t0`
is the construction-time value stored into `last_need_data_send`. -/
def initState (t0 : Nat) : RState :=
  { configs := [], hosts := [], services := [], hostgroups := [],
    servicegroups := [], contactgroups := [], contacts := [],
    timeperiods := [], commands := [], notificationways := [],
    schedulers := [], pollers := [], reactionners := [], brokers := [],
    receivers := [], realms := [], tags := [], services_tags := [],
    inp_hosts := [], inp_services := [], inp_hostgroups := [],
    inp_servicegroups := [], inp_contactgroups := [],
    last_need_data_send := t0, in_scheduler_mode := false, from_q := none }

/-- A minimal already-linked host for concrete test states. -/
def mkHost (i nm : String) (inst : Int) : Host :=
  { id := .str i, uuid := .str i, host_name := nm, instance_id := inst,
    hostgroups := .pyList [], check_command := .noneV, event_handler := .noneV,
    notification_period := .noneV, check_period := .noneV,
    maintenance_period := .noneV, contacts := [], tags := [],
    realm_name := none, parents := .pyList [], childs := .pyList [],
    parent_dependencies := .pyList [], child_dependencies := .pyList [],
    impacts := .pyList [], source_problems := .pyList [], services := [],
    downtimes := .asList [], comments := .asList [], state := none,
    scalars := [] }

/-- A minimal already-linked service for concrete test states. -/
def mkService (i hn sd : String) (inst : Int) : Service :=
  { id := .str i, uuid := .str i, host_name := hn, service_description := sd,
    instance_id := inst, display_name := some (.str sd), servicegroups := [],
    check_command := .noneV, event_handler := .noneV,
    notification_period := .noneV, check_period := .noneV,
    maintenance_period := .noneV, contacts := [], tags := [], host := none,
    impacts := .pyList [], source_problems := .pyList [],
    parent_dependencies := .pyList [], child_dependencies := .pyList [],
    downtimes := .asList [], comments := .asList [], state := none,
    scalars := [] }

/-- A minimal per-instance Config. -/
def mkConfig (i : String) (inst : Int) (ts : Nat) : ConfigV :=
  { id := .str i, uuid := .str i, instance_id := inst, timestamp := ts,
    scalars := [] }

/-- A staged service whose `host_name` matches no host anywhere. -/
def c7svc : Service := mkService "s7" "ghost" "ping" 3

/-- A store with a Config and complete staging for instance 3: no
hosts, one service naming the nonexistent host `ghost`. -/
def c7st : RState :=
  { initState 0 with
    configs := [(3, mkConfig "c3" 3 0)],
    inp_hosts := [(3, [])],
    inp_services := [(3, [(.int 1, c7svc)])],
    inp_hostgroups := [(3, [])],
    inp_servicegroups := [(3, [])],
    inp_contactgroups := [(3, [])] }

/-- A store holding one linked host (empty `services` back-list). -/
def c7wst : RState := { initState 0 with hosts := [mkHost "hw" "web7" 3] }

/-- A staged service naming that host. -/
def c7wsvc : Service := mkService "sw" "web7" "ping" 3

/-- A staged host carrying one tag, for the Linker-pass tag-count
fixture. -/
def c10host : Host := { mkHost "h10" "web10" 7 with tags := ["linux"] }

/-- A staged service carrying one tag, on the same host name. -/
def c10svc : Service := { mkService "s10" "web10" "ping" 7 with tags := ["web"] }

/-- A store with a Config and the five staged collections for instance
7: one tagged host and one tagged service, empty group stagings. -/
def c10st : RState :=
  { initState 0 with
    configs := [(7, mkConfig "c7" 7 0)],
    inp_hosts := [(7, [(.int 1, c10host)])],
    inp_services := [(7, [(.int 2, c10svc)])],
    inp_hostgroups := [(7, [])],
    inp_servicegroups := [(7, [])],
    inp_contactgroups := [(7, [])] }

/-- The state after one `manage_brok` call. -/
def stepState (fresh : String) (now : Nat) (st : RState) (b : Brok) : RState :=
  (manage_brok fresh now st b).1

/-- Replaying a brok sequence at one instant (same clock and same
fresh-identifier source for each event). -/
def replay (fresh : String) (now : Nat) (st : RState) (bs : List Brok) :
    RState :=
  bs.foldl (stepState fresh now) st

/-- The `data['id']` value a brok's handler receives after
normalization. -/
def brokDid (fresh : String) (b : Brok) : PyVal :=
  ((normalize_data_ids b.dataIds fresh).id).getD .none

/-- The `data['uuid']` value a brok's handler receives after
normalization. -/
def brokDuid (fresh : String) (b : Brok) : PyVal :=
  ((normalize_data_ids b.dataIds fresh).uuid).getD .none

/-- The contact handler's Alignak relink of one `notificationways`
entry: a store notification-way identifier resolves to a linked
reference, anything else is skipped. -/
def nwResolve (nws : List NWObj) : NwItem → Option NwItem
  | .uuidStr u =>
      (nws.find? (fun x => x.id = .str u)).map
        (fun nw => NwItem.ref nw.id nw.notificationway_name)
  | _ => none

/-- Per brok kind, the condition under which the replayed event is a
duplicate of already-merged content and its handler provably leaves
the state unchanged: a program status within the stored Config's
60-second window; a staged initial kind whose staging was deleted by
the completed merge; a command, peer link, notification way or contact
whose stored entity already equals what the replayed event rebuilds
and relinks to; the final broks-done with no staging left.  The
timeperiod kind is excluded — its replay changes the store (see the
counterexample) — as are the non-dump (update/check) kinds. -/
def dupNoop (fresh : String) (now : Nat) (st : RState) (b : Brok) : Prop :=
  match b.payload with
  | .program_status d =>
      ∃ c, dget st.configs d.instance_id = some c ∧ now - c.timestamp < 60
  | .initial_host_status d => dget st.inp_hosts d.instance_id = none
  | .initial_hostgroup_status d => dget st.inp_hostgroups d.instance_id = none
  | .initial_service_status d => dget st.inp_services d.instance_id = none
  | .initial_servicegroup_status d =>
      dget st.inp_servicegroups d.instance_id = none
  | .initial_contactgroup_status d =>
      dget st.inp_contactgroups d.instance_id = none
  | .initial_command_status d =>
      findCommandByName st.commands d.command_name
        = some (buildCommand (brokDid fresh b) (brokDuid fresh b) d)
      ∧ (d.scalars.map Prod.fst).Nodup
  | .initial_notificationway_status d =>
      ∃ nw, findNWByName st.notificationways d.notificationway_name = some nw
        ∧ linkifyNWSteps st.commands st.timeperiods
            (resetNW nw (brokDid fresh b) (brokDuid fresh b) d) = (nw, none)
  | .initial_contact_status d =>
      ∃ c u tl, findContactByName st.contacts d.contact_name = some c
        ∧ d.notificationways = .pyList (NwItem.uuidStr u :: tl)
        ∧ (∀ w, NwItem.uuidStr w ∈ NwItem.uuidStr u :: tl →
            ∃ nw, st.notificationways.find? (fun x => x.id = .str w) = some nw
              ∧ linkifyNWSteps st.commands st.timeperiods nw = (nw, none))
        ∧ { resetContact c (brokDid fresh b) (brokDuid fresh b) d with
            notificationways := .pyList ((NwItem.uuidStr u :: tl).filterMap
              (nwResolve st.notificationways)) } = c
  | .initial_scheduler_status d =>
      dget st.schedulers d.name
        = some (mergeScalars
            [("id", brokDid fresh b), ("uuid", brokDuid fresh b)] d.scalars)
  | .initial_poller_status d =>
      dget st.pollers d.name
        = some (mergeScalars
            [("id", brokDid fresh b), ("uuid", brokDuid fresh b)] d.scalars)
  | .initial_reactionner_status d =>
      dget st.reactionners d.name
        = some (mergeScalars
            [("id", brokDid fresh b), ("uuid", brokDuid fresh b)] d.scalars)
  | .initial_broker_status d =>
      dget st.brokers d.name
        = some (mergeScalars
            [("id", brokDid fresh b), ("uuid", brokDuid fresh b)] d.scalars)
  | .initial_receiver_status d =>
      dget st.receivers d.name
        = some (mergeScalars
            [("id", brokDid fresh b), ("uuid", brokDuid fresh b)] d.scalars)
  | .initial_broks_done i => dget st.inp_hosts i = none
  | .log => True
  | .other _ => True
  | _ => False

/-- The timeperiod data of a dump event (Alignak dict-shaped time
range). -/
def c3tpdata : TpData :=
  { timeperiod_name := "night", instance_id := 5,
    dateranges := [{ timeranges := [.dictShape 8 0 17 0] }],
    exclude := [], scalars := [] }

/-- The dump's `initial_timeperiod_status` brok. -/
def c3brok : Brok :=
  { ids := { id := none, uuid := none },
    dataIds := { id := some (.str "tp5"), uuid := some (.str "tp5") },
    payload := .initial_timeperiod_status c3tpdata }

/-- The dump's `program_status` brok for instance 5. -/
def c3prog : Brok :=
  { ids := { id := none, uuid := none },
    dataIds := { id := some (.str "c5x"), uuid := some (.str "c5x") },
    payload := .program_status { instance_id := 5, scalars := [] } }

/-- The dump's closing `initial_broks_done` brok. -/
def c3done : Brok :=
  { ids := { id := none, uuid := none },
    dataIds := { id := some (.str "d5x"), uuid := some (.str "d5x") },
    payload := .initial_broks_done 5 }

/-- A complete bulk dump for instance 5: program status, one
timeperiod, broks-done. -/
def c3dump : List Brok := [c3prog, c3brok, c3done]

/-- The store after the dump has been fully merged (Config stored with
timestamp 0, staging created, timeperiod normalized by the create
branch, Linker pass completed and staging deleted). -/
def c3merged : RState := replay "f" 0 (initState 0) c3dump

/-- A merged store for the replay witness: a fresh Config for instance
5 plus the command, notification way, contact and scheduler link that
the dump's events built; no staging left. -/
def c3wcmddata : CommandData :=
  { command_name := "ping", instance_id := 5, scalars := [] }

def c3wnwdata : NWData :=
  { notificationway_name := "nwA", instance_id := 5,
    host_notification_commands := [], service_notification_commands := [],
    host_notification_period := .noneV, service_notification_period := .noneV,
    scalars := [] }

def c3wnw : NWObj := buildNW (.str "n1") (.str "n1") c3wnwdata

def c3wcdata : ContactData :=
  { contact_name := "bob", instance_id := 5,
    notificationways := .pyList [.uuidStr "n1"], scalars := [] }

/-- The merged contact: identifiers from the brok, notification ways
already relinked to the store object. -/
def c3wcontact : Contact :=
  { id := .str "b5", uuid := .str "b5", contact_name := "bob",
    instance_id := 5,
    notificationways := .pyList [.ref (.str "n1") "nwA"], scalars := [] }

def c3wpeerdata : PeerData := { name := "sched1", scalars := [] }

def c3wst : RState :=
  { initState 0 with
    configs := [(5, mkConfig "c5" 5 0)],
    commands := [buildCommand (.str "k5") (.str "k5") c3wcmddata],
    notificationways := [c3wnw],
    contacts := [c3wcontact],
    schedulers := [("sched1",
      mergeScalars [("id", .str "p5"), ("uuid", .str "p5")] [])] }

/-- The replayed dump events for the witness: the duplicate program
status, a staged-kind initial event, the command, notification way,
contact and scheduler events, the final broks-done. -/
def c3wprog : Brok :=
  { ids := { id := none, uuid := none },
    dataIds := { id := some (.str "c5"), uuid := some (.str "c5") },
    payload := .program_status { instance_id := 5, scalars := [] } }

def c3whg : Brok :=
  { ids := { id := none, uuid := none },
    dataIds := { id := some (.str "g5"), uuid := some (.str "g5") },
    payload := .initial_hostgroup_status
      { hostgroup_name := "g", instance_id := 5, members := some [],
        hostgroup_members := some [], scalars := [] } }

def c3wcmd : Brok :=
  { ids := { id := none, uuid := none },
    dataIds := { id := some (.str "k5"), uuid := some (.str "k5") },
    payload := .initial_command_status c3wcmddata }

def c3wdone : Brok :=
  { ids := { id := none, uuid := none },
    dataIds := { id := some (.str "d5"), uuid := some (.str "d5") },
    payload := .initial_broks_done 5 }

def c3wnwb : Brok :=
  { ids := { id := none, uuid := none },
    dataIds := { id := some (.str "n1"), uuid := some (.str "n1") },
    payload := .initial_notificationway_status c3wnwdata }

def c3wcb : Brok :=
  { ids := { id := none, uuid := none },
    dataIds := { id := some (.str "b5"), uuid := some (.str "b5") },
    payload := .initial_contact_status c3wcdata }

def c3wpeerb : Brok :=
  { ids := { id := none, uuid := none },
    dataIds := { id := some (.str "p5"), uuid := some (.str "p5") },
    payload := .initial_scheduler_status c3wpeerdata }

/-- A brok of the managed type `update_host_status` whose data lacks
the always-stripped `realm` key, so the handler's `del data['realm']`
raises `KeyError`. -/
def c2brok : Brok :=
  { ids := { id := none, uuid := none },
    dataIds := { id := some (.str "b1"), uuid := some (.str "b1") },
    payload := .update_host_status
      { host_name := some "h1", topology_change := some (.bool false),
        uuid := some (.str "b1"), check_command := some .none,
        hostgroups := some .none, contacts := some .none,
        notification_period := some .none, contact_groups := some .none,
        check_period := some .none, event_handler := some .none,
        maintenance_period := some .none, realm := none,
        customs := some .none, escalations := some .none,
        parents := some (.pyList []), child_dependencies := some (.pyList []),
        parent_dependencies := some (.pyList []), childs := none,
        impacts := none, source_problems := none, downtimes := none,
        comments := none, state := some (.str "DOWN"), scalars := [] } }

/-- A regenerator constructed at t = 0 with an external queue loaded
and no messages sent yet. -/
def c6state : RState := { initState 0 with from_q := some [] }

/-- Instance 1 owns host h1, instance 2 owns host h2; one hostgroup
holds both as linked members; instance 1's Config is 100 seconds old. -/
def c1state : RState :=
  { initState 0 with
    configs := [(1, mkConfig "c1" 1 0)],
    hosts := [mkHost "h1" "alpha" 1, mkHost "h2" "beta" 2],
    hostgroups := [{ id := .str "g1", uuid := .str "g1",
                     hostgroup_name := "grp", instance_id := 1,
                     members := [.ref (.str "h1"), .ref (.str "h2")],
                     hostgroup_members := [], scalars := [] }] }

/-- An Alignak-shaped timeperiod brok: the time range is a plain
dict. -/
def c9data : TpData :=
  { timeperiod_name := "worktime", instance_id := 1,
    dateranges := [{ timeranges := [.dictShape 8 0 17 0] }],
    exclude := [], scalars := [] }

/-- The state after the first delivery of the timeperiod brok. -/
def c9st1 : RState :=
  manage_initial_timeperiod_status_brok (initState 0) (.str "tp1") (.str "tp1")
    c9data

/-- Host h1 in the store with state UP. -/
def c4state : RState :=
  { initState 0 with
    hosts := [{ mkHost "h1" "h1" 1 with state := some (.str "UP") }] }

/-- An `update_host_status` data with `topology_change = false`,
`state = "DOWN"`, and every always-stripped key present EXCEPT
`realm`. -/
def c4badData : UpdHostData :=
  { host_name := some "h1", topology_change := some (.bool false),
    uuid := some (.str "b1"), check_command := some .none,
    hostgroups := some .none, contacts := some .none,
    notification_period := some .none, contact_groups := some .none,
    check_period := some .none, event_handler := some .none,
    maintenance_period := some .none, realm := none,
    customs := some .none, escalations := some .none,
    parents := some (.pyList []), child_dependencies := some (.pyList []),
    parent_dependencies := some (.pyList []), childs := none,
    impacts := none, source_problems := none, downtimes := none,
    comments := none, state := some (.str "DOWN"), scalars := [] }

/-! ## General helper lemmas -/

theorem find?_setFirst {α : Type} (p : α → Bool) (v : α) (l : List α)
    (hsome : (l.find? p).isSome) (hv : p v = true) :
    (setFirst p v l).find? p = some v := by
  induction l with
  | nil => simp [List.find?_nil] at hsome
  | cons x xs ih =>
      by_cases hx : p x = true
      · simp only [setFirst, hx, if_true]
        exact List.find?_cons_of_pos _ hv
      · simp only [setFirst]
        rw [if_neg hx]
        rw [List.find?_cons_of_neg _ hx] at hsome
        rw [List.find?_cons_of_neg _ hx]
        exact ih hsome

theorem setFirst_find_self {α : Type} (p : α → Bool) (l : List α) (v : α)
    (h : l.find? p = some v) : setFirst p v l = l := by
  induction l with
  | nil => simp [List.find?_nil] at h
  | cons x xs ih =>
      by_cases hx : p x = true
      · rw [List.find?_cons_of_pos _ hx] at h
        injection h with h
        simp only [setFirst]
        rw [if_pos hx, h]
      · rw [List.find?_cons_of_neg _ hx] at h
        simp only [setFirst]
        rw [if_neg hx, ih h]

theorem dget_dset_self {α β : Type} [DecidableEq α]
    (l : List (α × β)) (k : α) (v : β) : dget (dset l k v) k = some v := by
  induction l with
  | nil => simp [dset, dget, List.find?]
  | cons x xs ih =>
      by_cases hx : x.1 = k
      · simp [dset, hx, dget, List.find?]
      · simp only [dset, hx, if_false]
        simp only [dget, List.find?] at ih ⊢
        simp only [hx, decide_eq_true_eq, if_false]
        simpa using ih

theorem dget_dset_ne {α β : Type} [DecidableEq α]
    (l : List (α × β)) (k k' : α) (v : β) (hne : k' ≠ k) :
    dget (dset l k v) k' = dget l k' := by
  induction l with
  | nil => simp [dset, dget, List.find?, Ne.symm hne]
  | cons x xs ih =>
      by_cases hx : x.1 = k
      · simp only [dset, hx, if_true]
        simp only [dget, List.find?]
        have : ¬(k = k') := Ne.symm hne
        simp [this, hx]
      · simp only [dset, hx, if_false]
        simp only [dget, List.find?] at ih ⊢
        by_cases hx' : x.1 = k'
        · simp [hx']
        · simpa [hx'] using ih

theorem dset_of_mem_nodup {α β : Type} [DecidableEq α]
    (l : List (α × β)) (k : α) (v : β)
    (hnd : (l.map Prod.fst).Nodup) (hmem : (k, v) ∈ l) :
    dset l k v = l := by
  induction l with
  | nil => simp at hmem
  | cons x xs ih =>
      simp only [List.map_cons, List.nodup_cons] at hnd
      by_cases hx : x.1 = k
      · have hxv : x = (k, v) := by
          rcases List.mem_cons.mp hmem with h1 | h2
          · exact h1.symm
          · exact absurd (hx ▸ List.mem_map.mpr ⟨(k, v), h2, rfl⟩) hnd.1
        simp [dset, hx, hxv]
      · have hxs : (k, v) ∈ xs := by
          rcases List.mem_cons.mp hmem with h1 | h2
          · exact absurd (by rw [← h1]) hx
          · exact h2
        simp [dset, hx, ih hnd.2 hxs]

theorem dget_of_mem_nodup {α β : Type} [DecidableEq α]
    (l : List (α × β)) (k : α) (v : β)
    (hnd : (l.map Prod.fst).Nodup) (hmem : (k, v) ∈ l) :
    dget l k = some v := by
  induction l with
  | nil => simp at hmem
  | cons x xs ih =>
      simp only [List.map_cons, List.nodup_cons] at hnd
      by_cases hx : x.1 = k
      · have hxv : x = (k, v) := by
          rcases List.mem_cons.mp hmem with h1 | h2
          · exact h1.symm
          · exact absurd (hx ▸ List.mem_map.mpr ⟨(k, v), h2, rfl⟩) hnd.1
        simp [dget, List.find?, hxv]
      · have hxs : (k, v) ∈ xs := by
          rcases List.mem_cons.mp hmem with h1 | h2
          · exact absurd (by rw [← h1]) hx
          · exact h2
        simp only [dget, List.find?, hx, decide_eq_true_eq, if_false]
        simpa [dget] using ih hnd.2 hxs

theorem mergeScalars_self_of_sub {α : Type} [DecidableEq α]
    (u l : List (α × PyVal))
    (hnd : (l.map Prod.fst).Nodup) (hsub : ∀ p ∈ u, p ∈ l) :
    u.foldl (fun acc p => dset acc p.1 p.2) l = l := by
  induction u with
  | nil => rfl
  | cons x xs ih =>
      have hx : x ∈ l := hsub x (List.mem_cons_self x xs)
      have hd : dset l x.1 x.2 = l := dset_of_mem_nodup l x.1 x.2 hnd hx
      simp only [List.foldl_cons, hd]
      exact ih (fun p hp => hsub p (List.mem_cons_of_mem x hp))

theorem mergeScalars_self (l : List (String × PyVal))
    (hnd : (l.map Prod.fst).Nodup) : mergeScalars l l = l :=
  mergeScalars_self_of_sub l l hnd (fun _ hp => hp)

theorem isNoneO_of_truthy (o : Option PyVal) (h : truthyO o = true) :
    isNoneO o = false := by
  cases o with
  | none => simp [truthyO, PyVal.truthy] at h
  | some v => cases v <;> simp_all [truthyO, isNoneO, PyVal.truthy]

theorem find?_eq_of_mem_unique {α : Type} (p : α → Bool) (l : List α) (v : α)
    (hall : ∀ y ∈ l, p y = true → y = v) (hmem : ∃ y ∈ l, p y = true) :
    l.find? p = some v := by
  induction l with
  | nil =>
      obtain ⟨y, hy, _⟩ := hmem
      simp at hy
  | cons x xs ih =>
      by_cases hx : p x = true
      · rw [List.find?_cons_of_pos _ hx, hall x (List.mem_cons_self x xs) hx]
      · rw [List.find?_cons_of_neg _ hx]
        apply ih
        · exact fun y hy hp => hall y (List.mem_cons_of_mem x hy) hp
        · obtain ⟨y, hy, hp⟩ := hmem
          rcases List.mem_cons.mp hy with h1 | h2
          · exact absurd (h1 ▸ hp) hx
          · exact ⟨y, h2, hp⟩

theorem find_addByIdTimeperiod (l : List Timeperiod) (v : Timeperiod)
    (nm : String) (hn : findTimeperiodByName l nm = none)
    (hv : v.timeperiod_name = nm) :
    findTimeperiodByName (addByIdTimeperiod l v) nm = some v := by
  have hnone := List.find?_eq_none.mp hn
  have hvp : (decide (v.timeperiod_name = nm)) = true := by simp [hv]
  unfold findTimeperiodByName
  apply find?_eq_of_mem_unique
  · intro y hy hp
    unfold addByIdTimeperiod at hy
    by_cases hany : l.any (fun x => x.id = v.id) = true
    · rw [if_pos hany] at hy
      obtain ⟨x, hxl, hxy⟩ := List.mem_map.mp hy
      by_cases hid : x.id = v.id
      · rw [if_pos hid] at hxy
        exact hxy.symm
      · rw [if_neg hid] at hxy
        exact absurd hp (by rw [← hxy]; exact hnone x hxl)
    · rw [if_neg hany] at hy
      rcases List.mem_append.mp hy with h1 | h2
      · exact absurd hp (hnone y h1)
      · simpa using h2
  · refine ⟨v, ?_, hvp⟩
    unfold addByIdTimeperiod
    by_cases hany : l.any (fun x => x.id = v.id) = true
    · rw [if_pos hany]
      obtain ⟨x, hxl, hxid⟩ := List.any_eq_true.mp hany
      exact List.mem_map.mpr ⟨x, hxl, by rw [if_pos (by simpa using hxid)]⟩
    · rw [if_neg hany]
      simp

/-! ## Claim C8 — dual id/uuid normalization in `manage_brok` -/

/-- C8 counterexample: a managed brok (an `initial_broks_done`) whose
data carries `id = 0` — a falsy but non-None value — leaves
`manage_brok`'s normalization with `id = 0` and NO `uuid` key at all:
the mirroring triggers on truthiness and the synthesis on `is None`
only, so the claim's "both `id` and `uuid` set and equal" is false at
this input. -/
theorem c8_counterexample :
    (manage_brok "fresh" 0 (initState 0)
      { ids := { id := none, uuid := none },
        dataIds := { id := some (.int 0), uuid := none },
        payload := .initial_broks_done 1 }).2.1.dataIds
      = { id := some (.int 0), uuid := none } := by
  rfl

/-- C8 (amended): `manage_brok` normalizes identifiers as follows.
Data mapping, keyed on Python truthiness: a truthy `id` is mirrored
into `uuid`; else a truthy `uuid` is mirrored into `id`; else, if the
`id` key is absent or `None`, one fresh identifier is synthesized into
both keys; otherwise (a falsy non-None `id`, e.g. `0`) the mapping is
left alone, `uuid` possibly absent.  The brok's own `id`/`uuid`
attributes are only mirrored, never synthesized.  `manage_brok`
applies exactly these two normalizations to every managed, wanted
brok. -/
theorem c8_normalization_amended (d : DataIds) (b : BrokIds) (fresh : String)
    (st : RState) (bk : Brok) (now : Nat)
    (hm : managed bk.payload = true) (hw : want_brok st bk.payload = true) :
    (truthyO d.id = true →
      normalize_data_ids d fresh = { id := d.id, uuid := d.id })
  ∧ (truthyO d.id = false → truthyO d.uuid = true →
      normalize_data_ids d fresh = { id := d.uuid, uuid := d.uuid })
  ∧ (truthyO d.id = false → truthyO d.uuid = false → isNoneO d.id = true →
      normalize_data_ids d fresh
        = { id := some (.str fresh), uuid := some (.str fresh) })
  ∧ (truthyO d.id = false → truthyO d.uuid = false → isNoneO d.id = false →
      normalize_data_ids d fresh = d)
  ∧ (truthyO b.id = true → normalize_brok_ids b = { id := b.id, uuid := b.id })
  ∧ (truthyO b.id = false → truthyO b.uuid = true →
      normalize_brok_ids b = { id := b.uuid, uuid := b.uuid })
  ∧ (truthyO b.id = false → truthyO b.uuid = false → normalize_brok_ids b = b)
  ∧ (manage_brok fresh now st bk).2.1.ids = normalize_brok_ids bk.ids
  ∧ (manage_brok fresh now st bk).2.1.dataIds
      = normalize_data_ids bk.dataIds fresh := by
  refine ⟨?_, ?_, ?_, ?_, ?_, ?_, ?_, ?_, ?_⟩
  · intro h
    have hnn := isNoneO_of_truthy d.id h
    simp [normalize_data_ids, h, hnn]
  · intro h1 h2
    have hnn := isNoneO_of_truthy d.uuid h2
    simp [normalize_data_ids, h1, h2, hnn]
  · intro h1 h2 h3
    simp [normalize_data_ids, h1, h2, h3]
  · intro h1 h2 h3
    simp [normalize_data_ids, h1, h2, h3]
  · intro h
    simp [normalize_brok_ids, h]
  · intro h1 h2
    simp [normalize_brok_ids, h1, h2]
  · intro h1 h2
    simp [normalize_brok_ids, h1, h2]
  · unfold manage_brok
    rw [hm, hw]
    simp only [Bool.not_true, Bool.false_eq_true, if_false]
    split <;> rfl
  · unfold manage_brok
    rw [hm, hw]
    simp only [Bool.not_true, Bool.false_eq_true, if_false]
    split <;> rfl

/-- C8 witness: the amended normalization applied at concrete inputs. -/
theorem c8_normalization_amended_witness :
    normalize_data_ids { id := some (.str "a"), uuid := none } "f"
      = { id := some (.str "a"), uuid := some (.str "a") } :=
  (c8_normalization_amended { id := some (.str "a"), uuid := none }
    { id := none, uuid := none } "f" (initState 0)
    { ids := { id := none, uuid := none },
      dataIds := { id := none, uuid := none },
      payload := .initial_broks_done 1 } 0 rfl rfl).1 (by decide)

/-! ## Claim C2 — handler exceptions and `manage_brok` -/

/-- C2 (code bug): `manage_brok`'s `try` does catch the handler's
exception and log it — but the function then executes `return rc` with
`rc` never assigned, so an `UnboundLocalError` escapes to the caller
(in `module.py`'s brok thread this aborts the whole loop iteration).
Evaluated on a handler-raising brok: an exception IS propagated,
contradicting the claim's "returns without propagating any
exception". -/
theorem c2_handler_exception_escapes :
    (manage_brok "fresh" 100 (initState 0) c2brok).2.2
      = some PyErr.unboundLocalRc
  ∧ (manage_brok "fresh" 100 (initState 0) c2brok).1 = initState 0 :=
  ⟨rfl, rfl⟩

/-! ## Claim C6 — unknown-instance `update_program_status` -/

/-- C6 counterexample: the NeedData rate limit is a single global
timestamp, not per unknown instance — after the NeedData for unknown
instance 99 at t = 100, a brok for the DIFFERENT unknown instance 98
at t = 120 emits nothing, though the claim says a different unknown
instance is not suppressed by the first one's message. -/
theorem c6_counterexample :
    (manage_update_program_status_brok 120
      (manage_update_program_status_brok 100 c6state (.str "u") (.str "u")
        { instance_id := 99, scalars := [] })
      (.str "v") (.str "v") { instance_id := 98, scalars := [] }).from_q
    = some [{ mtype := "NeedData", full_instance_id := 99, source := "WebUI" }] :=
  rfl

/-- C6 (amended): for an `update_program_status` brok whose instance
has no Config, the whole state is unchanged except for the outbound
queue and the single GLOBAL `last_need_data_send` timestamp
(initialized to the construction time): when more than 60 seconds have
passed since that timestamp and the external queue is loaded, exactly
one `{NeedData, full_instance_id, WebUI}` message is emitted and the
timestamp advances; otherwise nothing at all happens — whichever
unknown instance the brok names.  The rate limit is global, not per
instance. -/
theorem c6_needdata_amended (now : Nat) (st : RState) (did duid : PyVal)
    (d : ProgramData) (hunknown : dget st.configs d.instance_id = none) :
    ((now - st.last_need_data_send > 60 ∧ st.from_q.isSome = true) →
      manage_update_program_status_brok now st did duid d
        = { st with
            from_q := st.from_q.map (fun q => q ++
              [{ mtype := "NeedData", full_instance_id := d.instance_id,
                 source := "WebUI" }]),
            last_need_data_send := now })
  ∧ (¬(now - st.last_need_data_send > 60 ∧ st.from_q.isSome = true) →
      manage_update_program_status_brok now st did duid d = st) := by
  constructor
  · intro h
    simp only [manage_update_program_status_brok, hunknown]
    rw [if_pos h]
  · intro h
    simp only [manage_update_program_status_brok, hunknown]
    rw [if_neg h]

/-- C6 witness: the amended statement applied at a concrete unknown
instance with the window elapsed. -/
theorem c6_needdata_amended_witness :
    manage_update_program_status_brok 100 c6state (.str "u") (.str "u")
      { instance_id := 99, scalars := [] }
    = { c6state with
        from_q := some [{ mtype := "NeedData", full_instance_id := 99,
                          source := "WebUI" }],
        last_need_data_send := 100 } :=
  (c6_needdata_amended 100 c6state (.str "u") (.str "u")
    { instance_id := 99, scalars := [] } rfl).1 (by exact ⟨by decide, rfl⟩)

/-! ## Claim C5 — Linker bailout without side effects -/

/-- C5: `all_done_linking` invoked for an instance that has no Config,
or any of whose five staged collections is missing, returns with the
entire regenerator state unchanged — nothing merged, no membership
modified, no staging deleted. -/
theorem c5_all_done_linking_no_partial_merge (st : RState) (inst : Int)
    (h : dget st.configs inst = none ∨ dget st.inp_hosts inst = none ∨
         dget st.inp_hostgroups inst = none ∨
         dget st.inp_contactgroups inst = none ∨
         dget st.inp_services inst = none ∨
         dget st.inp_servicegroups inst = none) :
    all_done_linking st inst = (st, none) := by
  by_cases hm : st.in_scheduler_mode = true
  · simp [all_done_linking, hm]
  · rcases hc : dget st.configs inst with _ | c
    · simp [all_done_linking, hm, hc]
    · rcases h with h | h | h | h | h | h
      · rw [hc] at h
        exact absurd h (by simp)
      all_goals
        cases h1 : dget st.inp_hosts inst <;>
        cases h2 : dget st.inp_hostgroups inst <;>
        cases h3 : dget st.inp_contactgroups inst <;>
        cases h4 : dget st.inp_services inst <;>
        cases h5 : dget st.inp_servicegroups inst <;>
          simp_all [all_done_linking, hm, hc]

/-- C5 witness: a fresh regenerator has neither Config nor staging for
instance 5, and the Linker leaves it untouched. -/
theorem c5_witness : all_done_linking (initState 0) 5 = (initState 0, none) :=
  c5_all_done_linking_no_partial_merge (initState 0) 5 (Or.inl rfl)

/-! ## Claim C1 — restart purge -/

/-- C1 (code bug): a program status for instance 1 past the 60-second
window removes h1 from the store and keeps h2 there — but it empties
the hostgroup's members list entirely, losing h2's membership, because
the cleaning loop iterates `hg.members` immediately after assigning
`hg.members = []` (the commented-out `h.instance_id != c_id` filter and
the surrounding log lines document the intended per-instance
filtering). -/
theorem c1_purge_wipes_other_instances_memberships :
    (manage_program_status_brok 100 c1state (.str "c2") (.str "c2")
        { instance_id := 1, scalars := [] }).hosts.map (fun h => h.id)
      = [.str "h2"]
  ∧ (manage_program_status_brok 100 c1state (.str "c2") (.str "c2")
        { instance_id := 1, scalars := [] }).hostgroups.map
        (fun g => g.members)
      = [[]] :=
  ⟨rfl, rfl⟩

/-! ## Claim C9 — timeperiod time-range normalization -/

/-- C9 counterexample: the first delivery normalizes the dict-shaped
time range into a canonical `Timerange`; replaying the same brok hits
the already-known branch, whose `update_element` overwrites
`dateranges` with the raw dicts and performs no normalization — after
that handler run the stored time range is a plain dict again, refuting
the claim's "whether or not a timeperiod of that name already
exists". -/
theorem c9_counterexample :
    (c9st1.timeperiods.map (fun tp => tp.dateranges)
       = [[{ timeranges :=
              [.canon { hstart := 8, mstart := 0, hend := 17, mend := 0 }] }]])
  ∧ ((manage_initial_timeperiod_status_brok c9st1 (.str "tp1") (.str "tp1")
        c9data).timeperiods.map (fun tp => tp.dateranges)
       = [[{ timeranges := [.dictShape 8 0 17 0] }]]) :=
  ⟨rfl, rfl⟩

/-- C9 (amended): the canonical normalization happens only on
creation: when no timeperiod of that name exists, the stored
timeperiod's every time range of every daterange is a canonical
`Timerange` (whatever shape — dict or object — the event carried).
When a timeperiod of that name already exists, `update_element`
overwrites its fields with the raw event data and no normalization
occurs: afterwards its dateranges are exactly the event's raw
dateranges. -/
theorem c9_timerange_normalization_amended (st : RState) (did duid : PyVal)
    (d : TpData) :
    (findTimeperiodByName st.timeperiods d.timeperiod_name = none →
      ∃ tp, findTimeperiodByName
          (manage_initial_timeperiod_status_brok st did duid d).timeperiods
          d.timeperiod_name = some tp
        ∧ (∀ dr ∈ tp.dateranges, ∀ tr ∈ dr.timeranges,
            ∃ t : Timerange, tr = .canon t)
        ∧ tp.dateranges = d.dateranges.map (fun dr =>
            { dr with timeranges :=
                dr.timeranges.map (fun tr => .canon (normalizeTimerange tr)) }))
  ∧ (∀ tp0, findTimeperiodByName st.timeperiods d.timeperiod_name = some tp0 →
      ∃ tp, findTimeperiodByName
          (manage_initial_timeperiod_status_brok st did duid d).timeperiods
          d.timeperiod_name = some tp
        ∧ tp.dateranges = d.dateranges) := by
  constructor
  · intro hnone
    unfold manage_initial_timeperiod_status_brok
    rw [hnone]
    refine ⟨_, find_addByIdTimeperiod _ _ _ hnone rfl, ?_, rfl⟩
    intro dr hdr tr htr
    simp only [buildTimeperiod, List.mem_map] at hdr
    obtain ⟨dr0, _, hdr0⟩ := hdr
    rw [← hdr0] at htr
    simp only [List.mem_map] at htr
    obtain ⟨tr0, _, htr0⟩ := htr
    exact ⟨normalizeTimerange tr0, htr0.symm⟩
  · intro tp0 hsome
    unfold manage_initial_timeperiod_status_brok
    rw [hsome]
    refine ⟨resetTimeperiod tp0 did duid d, ?_, rfl⟩
    exact find?_setFirst _ _ _
      (by unfold findTimeperiodByName at hsome; rw [hsome]; rfl)
      (by simp [resetTimeperiod, buildTimeperiod])

/-! ## Claim C4 — update field filtering -/

theorem dget_foldl_not_mem {α β : Type} [DecidableEq α]
    (u : List (α × β)) (base : List (α × β)) (k : α)
    (hk : k ∉ u.map Prod.fst) :
    dget (u.foldl (fun acc p => dset acc p.1 p.2) base) k = dget base k := by
  induction u generalizing base with
  | nil => rfl
  | cons x xs ih =>
      simp only [List.map_cons, List.mem_cons, not_or] at hk
      simp only [List.foldl_cons]
      rw [ih (dset base x.1 x.2) hk.2]
      exact dget_dset_ne base x.1 k x.2 hk.1

theorem dget_mergeScalars_right {α : Type} [DecidableEq α]
    (base upd : List (α × PyVal)) (k : α) (v : PyVal)
    (hnd : (upd.map Prod.fst).Nodup) (h : dget upd k = some v) :
    dget (upd.foldl (fun acc p => dset acc p.1 p.2) base) k = some v := by
  induction upd generalizing base with
  | nil => simp [dget, List.find?] at h
  | cons x xs ih =>
      simp only [List.map_cons, List.nodup_cons] at hnd
      by_cases hx : x.1 = k
      · subst hx
        have hv : x.2 = v := by
          simpa [dget, List.find?] using h
        have hkxs : x.1 ∉ xs.map Prod.fst := hnd.1
        simp only [List.foldl_cons]
        rw [dget_foldl_not_mem xs (dset base x.1 x.2) x.1 hkxs, ← hv]
        exact dget_dset_self base x.1 x.2
      · have h' : dget xs k = some v := by
          simpa [dget, List.find?, hx] using h
        simp only [List.foldl_cons]
        exact ih (dset base x.1 x.2) hnd.2 h'

/-- C4 counterexample: with `topology_change` false and host h1 in the
store, a data mapping missing the always-stripped `realm` key makes
`del data['realm']` raise before anything is updated: the store is
unchanged and h1's state is NOT overwritten with the event's "DOWN" —
the claim's "scalar fields present in the event data are overwritten"
fails for this brok. -/
theorem c4_counterexample :
    manage_update_host_status_brok c4state (.str "b1") (.str "b1") c4badData
      = (c4state, some PyErr.keyError)
  ∧ (manage_update_host_status_brok c4state (.str "b1") (.str "b1")
        c4badData).1.hosts.map (fun h => h.state) = [some (.str "UP")] :=
  ⟨rfl, rfl⟩

theorem find?_setFirst_isSome {α : Type} (p : α → Bool) (v : α) (l : List α)
    (h : (l.find? p).isSome) (hv : p v = true) :
    ((setFirst p v l).find? p).isSome := by
  rw [find?_setFirst p v l h hv]
  rfl

/-- C4 (amended): for an `update_host_status` brok with
`topology_change` false, whose data contains every always-stripped key
and the three not-under-topology-change keys (as real status broks do),
and whose `host_name` names a store host: after the handler the host's
check_command, hostgroups, contacts, notification_period, check_period,
event_handler, maintenance_period, parents, parent_dependencies and
child_dependencies are unchanged (stripped before the overwrite, never
clobbered with raw names), while the event's `state` and its other
plain keys are written onto the host.  If any stripped key is missing
the handler instead raises before updating anything (see the
counterexample). -/
theorem c4_update_filtering_amended (st : RState) (did duid : PyVal)
    (d : UpdHostData) (tv : PyVal) (hname : String) (host : Host)
    (htopo : d.topology_change = some tv) (htv : tv.truthy = false)
    (hclean : updHostCleanOk d = true) (htk : updHostTopoKeysOk d = true)
    (hn : d.host_name = some hname)
    (hfind : findHostByName st.hosts hname = some host)
    (hnd : (d.scalars.map Prod.fst).Nodup) :
    ∃ h', findHostByName
        (manage_update_host_status_brok st did duid d).1.hosts hname = some h'
      ∧ h'.check_command = host.check_command
      ∧ h'.hostgroups = host.hostgroups
      ∧ h'.contacts = host.contacts
      ∧ h'.notification_period = host.notification_period
      ∧ h'.check_period = host.check_period
      ∧ h'.event_handler = host.event_handler
      ∧ h'.maintenance_period = host.maintenance_period
      ∧ h'.parents = host.parents
      ∧ h'.parent_dependencies = host.parent_dependencies
      ∧ h'.child_dependencies = host.child_dependencies
      ∧ (∀ v, d.state = some v → h'.state = some v)
      ∧ (∀ k v, dget d.scalars k = some v → dget h'.scalars k = some v) := by
  have hsome0 : ((st.hosts.find?
      (fun h => decide (h.host_name = hname))).isSome) = true := by
    unfold findHostByName at hfind
    rw [hfind]
    rfl
  simp only [manage_update_host_status_brok, htopo, hn, hfind, hclean, htk, htv,
    Bool.not_true, Bool.not_false, Bool.and_false, Bool.false_eq_true,
    if_false]
  unfold findHostByName
  split
  · exact ⟨_, find?_setFirst _ _ _ hsome0 (by simp [rebuildDcHost]), rfl, rfl, rfl, rfl, rfl,
      rfl, rfl, rfl, rfl, rfl,
      fun v hv => by simp [rebuildDcHost, hv],
      fun k v hkv => dget_mergeScalars_right host.scalars d.scalars k v hnd hkv⟩
  · split
    · exact ⟨_, find?_setFirst _ _ _
        (find?_setFirst_isSome _ _ _ hsome0 (by simp [rebuildDcHost])) (by simp [rebuildDcHost]), rfl, rfl,
        rfl, rfl, rfl, rfl, rfl, rfl, rfl, rfl,
        fun v hv => by simp [rebuildDcHost, hv],
        fun k v hkv => dget_mergeScalars_right host.scalars d.scalars k v hnd hkv⟩
    · exact ⟨_, find?_setFirst _ _ _
        (find?_setFirst_isSome _ _ _
          (find?_setFirst_isSome _ _ _
            (find?_setFirst_isSome _ _ _ hsome0 (by simp [rebuildDcHost])) (by simp [rebuildDcHost]))
          (by simp [rebuildDcHost])) (by simp [rebuildDcHost]),
        rfl, rfl, rfl, rfl, rfl, rfl, rfl, rfl, rfl, rfl,
        fun v hv => by simp [rebuildDcHost, hv],
        fun k v hkv => dget_mergeScalars_right host.scalars d.scalars k v hnd hkv⟩

/-- C4 witness: the amended statement applied at a concrete one-host
store, with the update brok carrying all stripped keys and
`state = "DOWN"`. -/
theorem c4_update_filtering_amended_witness :
    ∃ h', findHostByName
        (manage_update_host_status_brok c4state (.str "b1") (.str "b1")
          { c4badData with realm := some .none }).1.hosts "h1" = some h'
      ∧ h'.check_command = (mkHost "h1" "h1" 1).check_command
      ∧ h'.hostgroups = (mkHost "h1" "h1" 1).hostgroups
      ∧ h'.contacts = (mkHost "h1" "h1" 1).contacts
      ∧ h'.notification_period = (mkHost "h1" "h1" 1).notification_period
      ∧ h'.check_period = (mkHost "h1" "h1" 1).check_period
      ∧ h'.event_handler = (mkHost "h1" "h1" 1).event_handler
      ∧ h'.maintenance_period = (mkHost "h1" "h1" 1).maintenance_period
      ∧ h'.parents = (mkHost "h1" "h1" 1).parents
      ∧ h'.parent_dependencies = (mkHost "h1" "h1" 1).parent_dependencies
      ∧ h'.child_dependencies = (mkHost "h1" "h1" 1).child_dependencies
      ∧ (∀ v, ({ c4badData with realm := some .none } : UpdHostData).state
            = some v → h'.state = some v)
      ∧ (∀ k v, dget ({ c4badData with realm := some .none } :
            UpdHostData).scalars k = some v → dget h'.scalars k = some v) :=
  c4_update_filtering_amended c4state (.str "b1") (.str "b1")
    { c4badData with realm := some .none } (.bool false) "h1"
    ({ mkHost "h1" "h1" 1 with state := some (.str "UP") }) rfl rfl rfl rfl rfl
    rfl (by decide)

/-! ## Claim C10 — monotone tag counters -/

theorem tagCount_tagIncr_eq (l : List (String × Nat)) (u t : String) :
    tagCount (tagIncr l u) t
      = tagCount l t + (if t = u then 1 else 0) := by
  by_cases h : t = u
  · subst h
    simp [tagIncr, tagCount, dget_dset_self]
  · unfold tagIncr tagCount
    rw [dget_dset_ne l u t _ h]
    simp [h]

theorem tagCount_tagIncr_ge (l : List (String × Nat)) (u t : String) :
    tagCount l t ≤ tagCount (tagIncr l u) t := by
  rw [tagCount_tagIncr_eq]
  omega

theorem tagCount_foldl_tagIncr_ge (ts : List String) (l : List (String × Nat))
    (t : String) : tagCount l t ≤ tagCount (ts.foldl tagIncr l) t := by
  induction ts generalizing l with
  | nil => exact le_refl _
  | cons u us ih =>
      simp only [List.foldl_cons]
      exact le_trans (tagCount_tagIncr_ge l u t) (ih (tagIncr l u))

theorem tagCount_foldl_tagIncr_eq (ts : List String) (l : List (String × Nat))
    (t : String) :
    tagCount (ts.foldl tagIncr l) t = tagCount l t + ts.count t := by
  induction ts generalizing l with
  | nil => simp
  | cons u us ih =>
      simp only [List.foldl_cons]
      rw [ih (tagIncr l u), tagCount_tagIncr_eq, List.count_cons]
      by_cases h : t = u
      · subst h
        simp
        omega
      · have h2 : ¬(u = t) := fun hh => h hh.symm
        simp [h, h2]

/-- The contact handler's Alignak branch touches only the
notification-way store. -/
theorem contactBranchA_tags (st : RState) (items : List NwItem) :
    (contactBranchA st items).1.tags = st.tags
  ∧ (contactBranchA st items).1.services_tags = st.services_tags := by
  induction items generalizing st with
  | nil => exact ⟨rfl, rfl⟩
  | cons it rest ih =>
      unfold contactBranchA
      cases it <;> dsimp only <;>
        (repeat' split) <;>
        first
          | exact ⟨rfl, rfl⟩
          | exact ih _

/-- The contact handler's Shinken branch touches only the
notification-way store. -/
theorem contactBranchB_tags (st : RState) (items : List NwItem) :
    (contactBranchB st items).1.tags = st.tags
  ∧ (contactBranchB st items).1.services_tags = st.services_tags := by
  induction items generalizing st with
  | nil => exact ⟨rfl, rfl⟩
  | cons it rest ih =>
      unfold contactBranchB
      cases it <;> dsimp only <;>
        (repeat' split) <;>
        first
          | exact ⟨rfl, rfl⟩
          | exact ih _

/-- One staged host's linking step: the host-tag counters only grow
(they are exactly the staged host's tags folded in on success, and
untouched when a linkify step raises first), and the service-tag
counters are untouched. -/
theorem linkOneHost_tags (st : RState) (h : Host) (t : String) :
    (tagCount st.tags t ≤ tagCount (linkOneHost st h).1.tags t)
  ∧ (linkOneHost st h).1.services_tags = st.services_tags := by
  unfold linkOneHost
  dsimp only
  repeat' split
  all_goals
    first
      | exact ⟨le_refl _, rfl⟩
      | exact ⟨tagCount_foldl_tagIncr_ge _ _ t, rfl⟩

theorem linkHostsLoop_tags (st : RState) (l : List (PyVal × Host)) (t : String) :
    (tagCount st.tags t ≤ tagCount (linkHostsLoop st l).1.tags t)
  ∧ (linkHostsLoop st l).1.services_tags = st.services_tags := by
  induction l generalizing st with
  | nil => exact ⟨le_refl _, rfl⟩
  | cons p rest ih =>
      unfold linkHostsLoop
      dsimp only
      split
      · exact linkOneHost_tags st p.2 t
      · constructor
        · exact le_trans (linkOneHost_tags st p.2 t).1
            (ih (linkOneHost st p.2).1).1
        · exact ((ih (linkOneHost st p.2).1).2).trans
            (linkOneHost_tags st p.2 t).2

theorem linkOneService_tags (st : RState) (s : Service) (t : String) :
    (tagCount st.services_tags t
        ≤ tagCount (linkOneService st s).1.services_tags t)
  ∧ (linkOneService st s).1.tags = st.tags := by
  unfold linkOneService
  dsimp only
  repeat' split
  all_goals
    first
      | exact ⟨le_refl _, rfl⟩
      | exact ⟨tagCount_foldl_tagIncr_ge _ _ t, rfl⟩

theorem linkServicesLoop_tags (st : RState) (l : List (PyVal × Service))
    (t : String) :
    (tagCount st.services_tags t
        ≤ tagCount (linkServicesLoop st l).1.services_tags t)
  ∧ (linkServicesLoop st l).1.tags = st.tags := by
  induction l generalizing st with
  | nil => exact ⟨le_refl _, rfl⟩
  | cons p rest ih =>
      unfold linkServicesLoop
      dsimp only
      split
      · exact linkOneService_tags st p.2 t
      · constructor
        · exact le_trans (linkOneService_tags st p.2 t).1
            (ih (linkOneService st p.2).1).1
        · exact ((ih (linkOneService st p.2).1).2).trans
            (linkOneService_tags st p.2 t).2

theorem relinkHostsLoop_tags (st : RState) (l : List (PyVal × Host)) :
    (relinkHostsLoop st l).1.tags = st.tags
  ∧ (relinkHostsLoop st l).1.services_tags = st.services_tags := by
  induction l generalizing st with
  | nil => exact ⟨rfl, rfl⟩
  | cons p rest ih =>
      unfold relinkHostsLoop
      dsimp only
      split
      · exact ⟨rfl, rfl⟩
      · exact ⟨(ih _).1, (ih _).2⟩

theorem relinkServicesLoop_tags (st : RState) (l : List (PyVal × Service)) :
    (relinkServicesLoop st l).1.tags = st.tags
  ∧ (relinkServicesLoop st l).1.services_tags = st.services_tags := by
  induction l generalizing st with
  | nil => exact ⟨rfl, rfl⟩
  | cons p rest ih =>
      unfold relinkServicesLoop
      dsimp only
      split
      · exact ⟨rfl, rfl⟩
      · exact ⟨(ih _).1, (ih _).2⟩

theorem linkHostsLoop_stags_eq (st : RState) (l : List (PyVal × Host)) :
    (linkHostsLoop st l).1.services_tags = st.services_tags :=
  (linkHostsLoop_tags st l "").2

theorem linkServicesLoop_tags_eq (st : RState) (l : List (PyVal × Service)) :
    (linkServicesLoop st l).1.tags = st.tags :=
  (linkServicesLoop_tags st l "").2

theorem relinkHostsLoop_tags_eq (st : RState) (l : List (PyVal × Host)) :
    (relinkHostsLoop st l).1.tags = st.tags :=
  (relinkHostsLoop_tags st l).1

theorem relinkHostsLoop_stags_eq (st : RState) (l : List (PyVal × Host)) :
    (relinkHostsLoop st l).1.services_tags = st.services_tags :=
  (relinkHostsLoop_tags st l).2

theorem relinkServicesLoop_tags_eq (st : RState) (l : List (PyVal × Service)) :
    (relinkServicesLoop st l).1.tags = st.tags :=
  (relinkServicesLoop_tags st l).1

theorem relinkServicesLoop_stags_eq (st : RState) (l : List (PyVal × Service)) :
    (relinkServicesLoop st l).1.services_tags = st.services_tags :=
  (relinkServicesLoop_tags st l).2

/-- The whole Linker never decreases a tag counter. -/
theorem all_done_linking_tags_ge (st : RState) (inst : Int) (t : String) :
    (tagCount st.tags t ≤ tagCount (all_done_linking st inst).1.tags t)
  ∧ (tagCount st.services_tags t
      ≤ tagCount (all_done_linking st inst).1.services_tags t) := by
  unfold all_done_linking
  dsimp only
  repeat' split
  all_goals constructor
  all_goals
    simp only [relinkServicesLoop_tags_eq, relinkServicesLoop_stags_eq,
      relinkHostsLoop_tags_eq, relinkHostsLoop_stags_eq,
      linkServicesLoop_tags_eq, linkHostsLoop_stags_eq, addRealms,
      relinkTpExcludes]
  all_goals (try exact le_refl _)
  all_goals
    first
      | (refine le_trans ?_ ((linkHostsLoop_tags _ _ t).1)
         exact le_refl _)
      | (refine le_trans ?_ ((linkServicesLoop_tags _ _ t).1)
         exact le_refl _)

theorem linkHostGroupsField_tags (gs : List Hostgroup) (h : Host) :
    (linkHostGroupsField gs h).tags = h.tags := by
  unfold linkHostGroupsField
  split <;> rfl

/-- A staged host's step that completes without raising folds exactly
its tags into the counters. -/
theorem linkOneHost_success_tags (st : RState) (h : Host)
    (hok : (linkOneHost st h).2.2 = none) :
    (linkOneHost st h).1.tags = h.tags.foldl tagIncr st.tags := by
  unfold linkOneHost at hok ⊢
  dsimp only at hok ⊢
  repeat' split at hok
  all_goals first
    | exact absurd hok (Option.some_ne_none _)
    | simp_all [linkHostGroupsField_tags]

theorem linkHostsLoop_success_tag_add (l : List (PyVal × Host)) (st : RState)
    (t : String) (hok : (linkHostsLoop st l).2.2 = none) :
    tagCount (linkHostsLoop st l).1.tags t
      = tagCount st.tags t + (l.map (fun p => p.2.tags.count t)).sum := by
  induction l generalizing st with
  | nil => simp [linkHostsLoop]
  | cons p rest ih =>
      unfold linkHostsLoop at hok ⊢
      dsimp only at hok ⊢
      cases he : (linkOneHost st p.2).2.2 with
      | some e =>
          rw [he] at hok
          exact absurd hok (Option.some_ne_none _)
      | none =>
          rw [he] at hok
          dsimp only at hok ⊢
          rw [ih _ hok, linkOneHost_success_tags st p.2 he,
            tagCount_foldl_tagIncr_eq]
          simp
          omega

/-- The service analogue: a non-raising step folds the staged
service's tags into the service-tag counters. -/
theorem linkOneService_success_stags (st : RState) (s : Service)
    (hok : (linkOneService st s).2.2 = none) :
    (linkOneService st s).1.services_tags
      = s.tags.foldl tagIncr st.services_tags := by
  unfold linkOneService at hok ⊢
  dsimp only at hok ⊢
  repeat' split at hok
  all_goals first
    | exact absurd hok (Option.some_ne_none _)
    | simp_all

theorem linkServicesLoop_success_stag_add (l : List (PyVal × Service))
    (st : RState) (t : String) (hok : (linkServicesLoop st l).2.2 = none) :
    tagCount (linkServicesLoop st l).1.services_tags t
      = tagCount st.services_tags t
        + (l.map (fun p => p.2.tags.count t)).sum := by
  induction l generalizing st with
  | nil => simp [linkServicesLoop]
  | cons p rest ih =>
      unfold linkServicesLoop at hok ⊢
      dsimp only at hok ⊢
      cases he : (linkOneService st p.2).2.2 with
      | some e =>
          rw [he] at hok
          exact absurd hok (Option.some_ne_none _)
      | none =>
          rw [he] at hok
          dsimp only at hok ⊢
          rw [ih _ hok, linkOneService_success_stags st p.2 he,
            tagCount_foldl_tagIncr_eq]
          simp
          omega

theorem relinkTpExcludes_tags_eq (st : RState) :
    (relinkTpExcludes st).tags = st.tags := rfl

theorem relinkTpExcludes_stags_eq (st : RState) :
    (relinkTpExcludes st).services_tags = st.services_tags := rfl

theorem addRealms_tags_eq (st : RState) (l : List (PyVal × Host)) :
    (addRealms st l).tags = st.tags := rfl

theorem addRealms_stags_eq (st : RState) (l : List (PyVal × Host)) :
    (addRealms st l).services_tags = st.services_tags := rfl

/-- A fully successful Linker pass adds exactly the staged hosts'
(resp. services') tag multiplicities to the two counters. -/
theorem all_done_linking_success_tag_add (st : RState) (inst : Int) (t : String)
    (inpH : List (PyVal × Host)) (inpS : List (PyVal × Service))
    (hmode : st.in_scheduler_mode = false)
    (hcfg : (dget st.configs inst).isNone = false)
    (hH : dget st.inp_hosts inst = some inpH)
    (hS : dget st.inp_services inst = some inpS)
    (hHG : (dget st.inp_hostgroups inst).isSome = true)
    (hCG : (dget st.inp_contactgroups inst).isSome = true)
    (hSG : (dget st.inp_servicegroups inst).isSome = true)
    (hok : (all_done_linking st inst).2 = none) :
    tagCount (all_done_linking st inst).1.tags t
      = tagCount st.tags t + (inpH.map (fun p => p.2.tags.count t)).sum
  ∧ tagCount (all_done_linking st inst).1.services_tags t
      = tagCount st.services_tags t
        + (inpS.map (fun p => p.2.tags.count t)).sum := by
  obtain ⟨vHG, hHG2⟩ := Option.isSome_iff_exists.mp hHG
  obtain ⟨vCG, hCG2⟩ := Option.isSome_iff_exists.mp hCG
  obtain ⟨vSG, hSG2⟩ := Option.isSome_iff_exists.mp hSG
  unfold all_done_linking at hok ⊢
  rw [hmode, hcfg, hH, hS, hHG2, hCG2, hSG2] at hok ⊢
  simp only [Bool.false_eq_true, if_false] at hok ⊢
  repeat' split at hok
  all_goals first
    | exact absurd hok (Option.some_ne_none _)
    | (constructor <;>
        simp_all [relinkTpExcludes_tags_eq, relinkTpExcludes_stags_eq,
          addRealms_tags_eq, addRealms_stags_eq,
          linkHostsLoop_stags_eq, linkServicesLoop_tags_eq,
          relinkHostsLoop_tags_eq, relinkHostsLoop_stags_eq,
          relinkServicesLoop_tags_eq, relinkServicesLoop_stags_eq,
          linkHostsLoop_success_tag_add, linkServicesLoop_success_stag_add,
          tagCount_foldl_tagIncr_eq])

theorem manage_program_status_tags (now : Nat) (st : RState) (did duid : PyVal)
    (d : ProgramData) :
    (manage_program_status_brok now st did duid d).tags = st.tags
  ∧ (manage_program_status_brok now st did duid d).services_tags
      = st.services_tags := by
  unfold manage_program_status_brok
  dsimp only
  repeat' split
  all_goals exact ⟨rfl, rfl⟩

theorem manage_initial_host_status_tags (st : RState) (did duid : PyVal)
    (d : HostData) :
    (manage_initial_host_status_brok st did duid d).tags = st.tags
  ∧ (manage_initial_host_status_brok st did duid d).services_tags
      = st.services_tags := by
  unfold manage_initial_host_status_brok
  dsimp only
  repeat' split
  all_goals exact ⟨rfl, rfl⟩

theorem manage_initial_hostgroup_status_tags (st : RState) (did duid : PyVal)
    (d : HostgroupData) :
    (manage_initial_hostgroup_status_brok st did duid d).tags = st.tags
  ∧ (manage_initial_hostgroup_status_brok st did duid d).services_tags
      = st.services_tags := by
  unfold manage_initial_hostgroup_status_brok
  dsimp only
  repeat' split
  all_goals exact ⟨rfl, rfl⟩

theorem manage_initial_service_status_tags (st : RState) (did duid : PyVal)
    (d : ServiceData) :
    (manage_initial_service_status_brok st did duid d).tags = st.tags
  ∧ (manage_initial_service_status_brok st did duid d).services_tags
      = st.services_tags := by
  unfold manage_initial_service_status_brok
  dsimp only
  repeat' split
  all_goals exact ⟨rfl, rfl⟩

theorem manage_initial_servicegroup_status_tags (st : RState) (did duid : PyVal)
    (d : ServicegroupData) :
    (manage_initial_servicegroup_status_brok st did duid d).tags = st.tags
  ∧ (manage_initial_servicegroup_status_brok st did duid d).services_tags
      = st.services_tags := by
  unfold manage_initial_servicegroup_status_brok
  dsimp only
  repeat' split
  all_goals exact ⟨rfl, rfl⟩

theorem manage_initial_contactgroup_status_tags (st : RState) (did duid : PyVal)
    (d : ContactgroupData) :
    (manage_initial_contactgroup_status_brok st did duid d).tags = st.tags
  ∧ (manage_initial_contactgroup_status_brok st did duid d).services_tags
      = st.services_tags := by
  unfold manage_initial_contactgroup_status_brok
  dsimp only
  repeat' split
  all_goals exact ⟨rfl, rfl⟩

theorem manage_initial_timeperiod_status_tags (st : RState) (did duid : PyVal)
    (d : TpData) :
    (manage_initial_timeperiod_status_brok st did duid d).tags = st.tags
  ∧ (manage_initial_timeperiod_status_brok st did duid d).services_tags
      = st.services_tags := by
  unfold manage_initial_timeperiod_status_brok
  dsimp only
  repeat' split
  all_goals exact ⟨rfl, rfl⟩

theorem manage_initial_command_status_tags (st : RState) (did duid : PyVal)
    (d : CommandData) :
    (manage_initial_command_status_brok st did duid d).tags = st.tags
  ∧ (manage_initial_command_status_brok st did duid d).services_tags
      = st.services_tags := by
  unfold manage_initial_command_status_brok
  repeat' split
  all_goals exact ⟨rfl, rfl⟩

theorem manage_initial_notificationway_status_tags (st : RState)
    (did duid : PyVal) (d : NWData) :
    (manage_initial_notificationway_status_brok st did duid d).1.tags = st.tags
  ∧ (manage_initial_notificationway_status_brok st did duid d).1.services_tags
      = st.services_tags := by
  unfold manage_initial_notificationway_status_brok
  dsimp only
  repeat' split
  all_goals exact ⟨rfl, rfl⟩

theorem manage_initial_contact_status_tags (st : RState) (did duid : PyVal)
    (d : ContactData) :
    (manage_initial_contact_status_brok st did duid d).1.tags = st.tags
  ∧ (manage_initial_contact_status_brok st did duid d).1.services_tags
      = st.services_tags := by
  unfold manage_initial_contact_status_brok
  dsimp only
  repeat' split
  all_goals first
    | exact ⟨rfl, rfl⟩
    | exact ⟨(contactBranchA_tags _ _).1, (contactBranchA_tags _ _).2⟩
    | exact ⟨(contactBranchB_tags _ _).1, (contactBranchB_tags _ _).2⟩

theorem manage_update_program_status_tags (now : Nat) (st : RState)
    (did duid : PyVal) (d : ProgramData) :
    (manage_update_program_status_brok now st did duid d).tags = st.tags
  ∧ (manage_update_program_status_brok now st did duid d).services_tags
      = st.services_tags := by
  unfold manage_update_program_status_brok
  dsimp only
  repeat' split
  all_goals exact ⟨rfl, rfl⟩

theorem manage_update_host_status_tags (st : RState) (did duid : PyVal)
    (d : UpdHostData) :
    (manage_update_host_status_brok st did duid d).1.tags = st.tags
  ∧ (manage_update_host_status_brok st did duid d).1.services_tags
      = st.services_tags := by
  unfold manage_update_host_status_brok
  dsimp only
  repeat' split
  all_goals exact ⟨rfl, rfl⟩

theorem manage_update_service_status_tags (st : RState) (did duid : PyVal)
    (d : UpdServiceData) :
    (manage_update_service_status_brok st did duid d).1.tags = st.tags
  ∧ (manage_update_service_status_brok st did duid d).1.services_tags
      = st.services_tags := by
  unfold manage_update_service_status_brok
  dsimp only
  repeat' split
  all_goals exact ⟨rfl, rfl⟩

theorem manage_host_check_result_tags (st : RState) (did duid : PyVal)
    (d : HostCheckData) :
    (manage_host_check_result_brok st did duid d).tags = st.tags
  ∧ (manage_host_check_result_brok st did duid d).services_tags
      = st.services_tags := by
  unfold manage_host_check_result_brok
  dsimp only
  repeat' split
  all_goals exact ⟨rfl, rfl⟩

theorem manage_service_check_result_tags (st : RState) (did duid : PyVal)
    (d : ServiceCheckData) :
    (manage_service_check_result_brok st did duid d).tags = st.tags
  ∧ (manage_service_check_result_brok st did duid d).services_tags
      = st.services_tags := by
  unfold manage_service_check_result_brok
  dsimp only
  repeat' split
  all_goals exact ⟨rfl, rfl⟩

/-- Every handler leaves the two tag counters untouched, except the
broks-done Linker pass, which only grows them. -/
theorem dispatch_tags_ge (now : Nat) (st : RState) (did duid : PyVal)
    (p : Payload) (t : String) :
    tagCount st.tags t ≤ tagCount (dispatch now st did duid p).1.tags t
  ∧ tagCount st.services_tags t
      ≤ tagCount (dispatch now st did duid p).1.services_tags t := by
  cases p with
  | initial_broks_done i => exact all_done_linking_tags_ge st i t
  | program_status d =>
      exact ⟨le_of_eq (congrArg (fun l => tagCount l t)
          (manage_program_status_tags now st did duid d).1).symm,
        le_of_eq (congrArg (fun l => tagCount l t)
          (manage_program_status_tags now st did duid d).2).symm⟩
  | initial_host_status d =>
      exact ⟨le_of_eq (congrArg (fun l => tagCount l t)
          (manage_initial_host_status_tags st did duid d).1).symm,
        le_of_eq (congrArg (fun l => tagCount l t)
          (manage_initial_host_status_tags st did duid d).2).symm⟩
  | initial_hostgroup_status d =>
      exact ⟨le_of_eq (congrArg (fun l => tagCount l t)
          (manage_initial_hostgroup_status_tags st did duid d).1).symm,
        le_of_eq (congrArg (fun l => tagCount l t)
          (manage_initial_hostgroup_status_tags st did duid d).2).symm⟩
  | initial_service_status d =>
      exact ⟨le_of_eq (congrArg (fun l => tagCount l t)
          (manage_initial_service_status_tags st did duid d).1).symm,
        le_of_eq (congrArg (fun l => tagCount l t)
          (manage_initial_service_status_tags st did duid d).2).symm⟩
  | initial_servicegroup_status d =>
      exact ⟨le_of_eq (congrArg (fun l => tagCount l t)
          (manage_initial_servicegroup_status_tags st did duid d).1).symm,
        le_of_eq (congrArg (fun l => tagCount l t)
          (manage_initial_servicegroup_status_tags st did duid d).2).symm⟩
  | initial_contact_status d =>
      exact ⟨le_of_eq (congrArg (fun l => tagCount l t)
          (manage_initial_contact_status_tags st did duid d).1).symm,
        le_of_eq (congrArg (fun l => tagCount l t)
          (manage_initial_contact_status_tags st did duid d).2).symm⟩
  | initial_contactgroup_status d =>
      exact ⟨le_of_eq (congrArg (fun l => tagCount l t)
          (manage_initial_contactgroup_status_tags st did duid d).1).symm,
        le_of_eq (congrArg (fun l => tagCount l t)
          (manage_initial_contactgroup_status_tags st did duid d).2).symm⟩
  | initial_timeperiod_status d =>
      exact ⟨le_of_eq (congrArg (fun l => tagCount l t)
          (manage_initial_timeperiod_status_tags st did duid d).1).symm,
        le_of_eq (congrArg (fun l => tagCount l t)
          (manage_initial_timeperiod_status_tags st did duid d).2).symm⟩
  | initial_command_status d =>
      exact ⟨le_of_eq (congrArg (fun l => tagCount l t)
          (manage_initial_command_status_tags st did duid d).1).symm,
        le_of_eq (congrArg (fun l => tagCount l t)
          (manage_initial_command_status_tags st did duid d).2).symm⟩
  | initial_notificationway_status d =>
      exact ⟨le_of_eq (congrArg (fun l => tagCount l t)
          (manage_initial_notificationway_status_tags st did duid d).1).symm,
        le_of_eq (congrArg (fun l => tagCount l t)
          (manage_initial_notificationway_status_tags st did duid d).2).symm⟩
  | initial_scheduler_status d => exact ⟨le_refl _, le_refl _⟩
  | initial_poller_status d => exact ⟨le_refl _, le_refl _⟩
  | initial_reactionner_status d => exact ⟨le_refl _, le_refl _⟩
  | initial_broker_status d => exact ⟨le_refl _, le_refl _⟩
  | initial_receiver_status d => exact ⟨le_refl _, le_refl _⟩
  | update_program_status d =>
      exact ⟨le_of_eq (congrArg (fun l => tagCount l t)
          (manage_update_program_status_tags now st did duid d).1).symm,
        le_of_eq (congrArg (fun l => tagCount l t)
          (manage_update_program_status_tags now st did duid d).2).symm⟩
  | update_host_status d =>
      exact ⟨le_of_eq (congrArg (fun l => tagCount l t)
          (manage_update_host_status_tags st did duid d).1).symm,
        le_of_eq (congrArg (fun l => tagCount l t)
          (manage_update_host_status_tags st did duid d).2).symm⟩
  | update_service_status d =>
      exact ⟨le_of_eq (congrArg (fun l => tagCount l t)
          (manage_update_service_status_tags st did duid d).1).symm,
        le_of_eq (congrArg (fun l => tagCount l t)
          (manage_update_service_status_tags st did duid d).2).symm⟩
  | update_scheduler_status d => exact ⟨le_refl _, le_refl _⟩
  | update_poller_status d => exact ⟨le_refl _, le_refl _⟩
  | update_reactionner_status d => exact ⟨le_refl _, le_refl _⟩
  | update_broker_status d => exact ⟨le_refl _, le_refl _⟩
  | update_receiver_status d => exact ⟨le_refl _, le_refl _⟩
  | host_check_result d =>
      exact ⟨le_of_eq (congrArg (fun l => tagCount l t)
          (manage_host_check_result_tags st did duid d).1).symm,
        le_of_eq (congrArg (fun l => tagCount l t)
          (manage_host_check_result_tags st did duid d).2).symm⟩
  | host_next_schedule d =>
      exact ⟨le_of_eq (congrArg (fun l => tagCount l t)
          (manage_host_check_result_tags st did duid d).1).symm,
        le_of_eq (congrArg (fun l => tagCount l t)
          (manage_host_check_result_tags st did duid d).2).symm⟩
  | service_check_result d =>
      exact ⟨le_of_eq (congrArg (fun l => tagCount l t)
          (manage_service_check_result_tags st did duid d).1).symm,
        le_of_eq (congrArg (fun l => tagCount l t)
          (manage_service_check_result_tags st did duid d).2).symm⟩
  | service_next_schedule d =>
      exact ⟨le_of_eq (congrArg (fun l => tagCount l t)
          (manage_service_check_result_tags st did duid d).1).symm,
        le_of_eq (congrArg (fun l => tagCount l t)
          (manage_service_check_result_tags st did duid d).2).symm⟩
  | log => exact ⟨le_refl _, le_refl _⟩
  | other s => exact ⟨le_refl _, le_refl _⟩

theorem manage_brok_tags_ge (fresh : String) (now : Nat) (st : RState)
    (b : Brok) (t : String) :
    tagCount st.tags t ≤ tagCount (manage_brok fresh now st b).1.tags t
  ∧ tagCount st.services_tags t
      ≤ tagCount (manage_brok fresh now st b).1.services_tags t := by
  unfold manage_brok
  dsimp only
  repeat' split
  all_goals first
    | exact ⟨le_refl _, le_refl _⟩
    | exact ⟨(dispatch_tags_ge now st _ _ _ t).1,
        (dispatch_tags_ge now st _ _ _ t).2⟩

theorem manage_program_status_dup_noop (now : Nat) (st : RState)
    (did duid : PyVal) (d : ProgramData) (c : ConfigV)
    (hc : dget st.configs d.instance_id = some c)
    (hfresh : now - c.timestamp < 60) :
    manage_program_status_brok now st did duid d = st := by
  unfold manage_program_status_brok
  dsimp only
  rw [hc]
  dsimp only
  rw [if_pos (decide_eq_true hfresh)]

theorem manage_initial_host_status_noop (st : RState) (did duid : PyVal)
    (d : HostData) (h : dget st.inp_hosts d.instance_id = none) :
    manage_initial_host_status_brok st did duid d = st := by
  unfold manage_initial_host_status_brok
  rw [h]

theorem manage_initial_hostgroup_status_noop (st : RState) (did duid : PyVal)
    (d : HostgroupData) (h : dget st.inp_hostgroups d.instance_id = none) :
    manage_initial_hostgroup_status_brok st did duid d = st := by
  unfold manage_initial_hostgroup_status_brok
  rw [h]

theorem manage_initial_service_status_noop (st : RState) (did duid : PyVal)
    (d : ServiceData) (h : dget st.inp_services d.instance_id = none) :
    manage_initial_service_status_brok st did duid d = st := by
  unfold manage_initial_service_status_brok
  rw [h]

theorem manage_initial_servicegroup_status_noop (st : RState)
    (did duid : PyVal) (d : ServicegroupData)
    (h : dget st.inp_servicegroups d.instance_id = none) :
    manage_initial_servicegroup_status_brok st did duid d = st := by
  unfold manage_initial_servicegroup_status_brok
  rw [h]

theorem manage_initial_contactgroup_status_noop (st : RState)
    (did duid : PyVal) (d : ContactgroupData)
    (h : dget st.inp_contactgroups d.instance_id = none) :
    manage_initial_contactgroup_status_brok st did duid d = st := by
  unfold manage_initial_contactgroup_status_brok
  rw [h]

/-- Replaying a command event whose stored command already equals what
the event builds leaves the store unchanged: the `update_element`
rewrite writes back the identical object. -/
theorem manage_initial_command_status_replay_noop (st : RState)
    (did duid : PyVal) (d : CommandData)
    (hfind : findCommandByName st.commands d.command_name
      = some (buildCommand did duid d))
    (hnd : (d.scalars.map Prod.fst).Nodup) :
    manage_initial_command_status_brok st did duid d = st := by
  unfold manage_initial_command_status_brok
  rw [hfind]
  dsimp only
  have hres : resetCommand (buildCommand did duid d) did duid d
      = buildCommand did duid d := by
    unfold resetCommand buildCommand
    dsimp only
    rw [mergeScalars_self d.scalars hnd]
  rw [hres]
  unfold findCommandByName at hfind
  rw [setFirst_find_self (fun x => x.command_name = d.command_name) st.commands
    (buildCommand did duid d) hfind]

theorem setFirst_setFirst {α : Type} (p : α → Bool) (v1 v2 : α) (l : List α)
    (h1 : p v1 = true) :
    setFirst p v2 (setFirst p v1 l) = setFirst p v2 l := by
  induction l with
  | nil => rfl
  | cons x xs ih =>
      by_cases hx : p x
      · simp [setFirst, hx, h1]
      · simp [setFirst, hx, ih]

theorem dset_dget_self {α β : Type} [DecidableEq α] (l : List (α × β)) (k : α)
    (v : β) (h : dget l k = some v) : dset l k v = l := by
  induction l with
  | nil => simp [dget] at h
  | cons x xs ih =>
      by_cases hx : x.1 = k
      · unfold dget at h
        rw [List.find?_cons_of_pos _ (by simp [hx])] at h
        simp at h
        unfold dset
        rw [if_pos hx]
        cases x
        simp_all
      · unfold dget at h
        rw [List.find?_cons_of_neg _ (by simp [hx])] at h
        unfold dset
        rw [if_neg hx, ih h]

/-- When every identifier in the list resolves to a stored
notification way that relinking fixes, the Alignak contact branch
leaves the state unchanged and collects the linked references. -/
theorem contactBranchA_fixed (st : RState) (items : List NwItem)
    (hfix : ∀ u, NwItem.uuidStr u ∈ items →
        ∃ nw, st.notificationways.find? (fun x => x.id = .str u) = some nw
          ∧ linkifyNWSteps st.commands st.timeperiods nw = (nw, none)) :
    contactBranchA st items
      = (st, items.filterMap (nwResolve st.notificationways), none) := by
  induction items with
  | nil => rfl
  | cons it rest ih =>
      cases it with
      | uuidStr u =>
          obtain ⟨nw, hf, hlin⟩ := hfix u (List.mem_cons_self _ _)
          unfold contactBranchA
          dsimp only
          rw [hf]
          dsimp only
          rw [hlin]
          dsimp only
          rw [setFirst_find_self (fun x => x.id = PyVal.str u)
            st.notificationways nw hf]
          rw [ih (fun w hw => hfix w (List.mem_cons_of_mem _ hw))]
          simp [nwResolve, hf]
      | obj nw =>
          unfold contactBranchA
          dsimp only
          rw [ih (fun w hw => hfix w (List.mem_cons_of_mem _ hw))]
          simp [nwResolve]
      | ref nid nm =>
          unfold contactBranchA
          dsimp only
          rw [ih (fun w hw => hfix w (List.mem_cons_of_mem _ hw))]
          simp [nwResolve]

/-- Replaying a notification-way event whose stored object is a fixed
point of reset-then-relink leaves the store unchanged. -/
theorem manage_initial_notificationway_status_replay_noop (st : RState)
    (did duid : PyVal) (d : NWData) (nw : NWObj)
    (hfind : findNWByName st.notificationways d.notificationway_name = some nw)
    (hfix : linkifyNWSteps st.commands st.timeperiods (resetNW nw did duid d)
      = (nw, none)) :
    (manage_initial_notificationway_status_brok st did duid d).1 = st := by
  unfold manage_initial_notificationway_status_brok
  rw [hfind]
  dsimp only
  rw [hfix]
  dsimp only
  unfold findNWByName at hfind
  rw [setFirst_find_self
    (fun x => x.notificationway_name = d.notificationway_name)
    st.notificationways nw hfind]

/-- Replaying a contact event over the merged store is a no-op when
the stored contact is exactly what the event rebuilds and relinks to
(Alignak identifier branch, all identifiers resolving to relink-fixed
notification ways). -/
theorem manage_initial_contact_status_replay_noop (st : RState)
    (did duid : PyVal) (d : ContactData) (c : Contact) (u : String)
    (tl : List NwItem)
    (hfindc : findContactByName st.contacts d.contact_name = some c)
    (hnw : d.notificationways = .pyList (NwItem.uuidStr u :: tl))
    (hfix : ∀ w, NwItem.uuidStr w ∈ NwItem.uuidStr u :: tl →
        ∃ nw, st.notificationways.find? (fun x => x.id = .str w) = some nw
          ∧ linkifyNWSteps st.commands st.timeperiods nw = (nw, none))
    (hc : { resetContact c did duid d with
            notificationways := .pyList ((NwItem.uuidStr u :: tl).filterMap
              (nwResolve st.notificationways)) } = c) :
    (manage_initial_contact_status_brok st did duid d).1 = st := by
  unfold manage_initial_contact_status_brok
  dsimp only
  rw [hfindc]
  dsimp only
  have hrc : (resetContact c did duid d).notificationways
      = d.notificationways := rfl
  rw [hrc, hnw]
  dsimp only
  simp only [Option.isSome_some, eq_self_iff_true, if_true]
  have hb := contactBranchA_fixed
    { st with
      contacts := setFirst (fun x => x.contact_name = d.contact_name)
        (resetContact c did duid d) st.contacts }
    (NwItem.uuidStr u :: tl) hfix
  rw [hb]
  dsimp only
  dsimp only at hc
  rw [hc]
  rw [setFirst_setFirst _ _ _ st.contacts
    (by simp [resetContact, buildContact])]
  unfold findContactByName at hfindc
  rw [setFirst_find_self (fun x => x.contact_name = d.contact_name)
    st.contacts c hfindc]

theorem all_done_linking_missing_noop (st : RState) (i : Int)
    (h : dget st.inp_hosts i = none) :
    all_done_linking st i = (st, none) := by
  unfold all_done_linking
  split
  · rfl
  · split
    · rfl
    · rw [h]

/-- `manage_brok` computes the dispatch of the normalized brok when
the type is managed and wanted, the unchanged state otherwise. -/
theorem manage_brok_state (fresh : String) (now : Nat) (st : RState)
    (b : Brok) :
    (manage_brok fresh now st b).1
      = if (managed b.payload && want_brok st b.payload) then
          (dispatch now st (brokDid fresh b) (brokDuid fresh b) b.payload).1
        else st := by
  unfold manage_brok brokDid brokDuid
  dsimp only
  by_cases h1 : managed b.payload <;> by_cases h2 : want_brok st b.payload <;>
    simp [h1, h2] <;> (try (split <;> rfl))

theorem stepState_eq_of_dupNoop (fresh : String) (now : Nat) (st : RState)
    (b : Brok) (h : dupNoop fresh now st b) :
    stepState fresh now st b = st := by
  unfold stepState
  rw [manage_brok_state]
  split
  · obtain ⟨ids, dids, p⟩ := b
    cases p with
    | program_status d =>
        obtain ⟨c, hc, hfresh⟩ := h
        exact manage_program_status_dup_noop now st _ _ d c hc hfresh
    | initial_host_status d => exact manage_initial_host_status_noop st _ _ d h
    | initial_hostgroup_status d =>
        exact manage_initial_hostgroup_status_noop st _ _ d h
    | initial_service_status d =>
        exact manage_initial_service_status_noop st _ _ d h
    | initial_servicegroup_status d =>
        exact manage_initial_servicegroup_status_noop st _ _ d h
    | initial_contactgroup_status d =>
        exact manage_initial_contactgroup_status_noop st _ _ d h
    | initial_command_status d =>
        exact manage_initial_command_status_replay_noop st _ _ d h.1 h.2
    | initial_broks_done i =>
        exact congrArg Prod.fst (all_done_linking_missing_noop st i h)
    | initial_contact_status d =>
        obtain ⟨c, u, tl, hfindc, hnw, hfix, hc⟩ := h
        exact manage_initial_contact_status_replay_noop st _ _ d c u tl
          hfindc hnw hfix hc
    | initial_timeperiod_status d => exact h.elim
    | initial_notificationway_status d =>
        obtain ⟨nw, hfind, hfixp⟩ := h
        exact manage_initial_notificationway_status_replay_noop st _ _ d nw
          hfind hfixp
    | initial_scheduler_status d =>
        have h2 := dset_dget_self st.schedulers d.name _ h
        simp only [dispatch, manage_initial_peer_status_brok, h2]
    | initial_poller_status d =>
        have h2 := dset_dget_self st.pollers d.name _ h
        simp only [dispatch, manage_initial_peer_status_brok, h2]
    | initial_reactionner_status d =>
        have h2 := dset_dget_self st.reactionners d.name _ h
        simp only [dispatch, manage_initial_peer_status_brok, h2]
    | initial_broker_status d =>
        have h2 := dset_dget_self st.brokers d.name _ h
        simp only [dispatch, manage_initial_peer_status_brok, h2]
    | initial_receiver_status d =>
        have h2 := dset_dget_self st.receivers d.name _ h
        simp only [dispatch, manage_initial_peer_status_brok, h2]
    | update_program_status d => exact h.elim
    | update_host_status d => exact h.elim
    | update_service_status d => exact h.elim
    | update_scheduler_status d => exact h.elim
    | update_poller_status d => exact h.elim
    | update_reactionner_status d => exact h.elim
    | update_broker_status d => exact h.elim
    | update_receiver_status d => exact h.elim
    | host_check_result d => exact h.elim
    | host_next_schedule d => exact h.elim
    | service_check_result d => exact h.elim
    | service_next_schedule d => exact h.elim
    | log => rfl
    | other s => rfl
  · rfl

/-- C3 counterexample: an instantiation of the original claim.  The
complete bulk dump `c3dump` (program status, one timeperiod,
broks-done) has been fully merged into `c3merged` — the Config for
instance 5 is stored with timestamp 0 and the staging is deleted —
and the identical event sequence is replayed at time 0, within the
60-second window.  The Entity Store changes: the duplicate program
status IS ignored and the broks-done is a no-op, but the stored
timeperiod's normalized `Timerange` is overwritten with the raw
dict-shaped event data (lines 1024-1025 take the bare `update_element`
branch on replay). -/
theorem c3_counterexample :
    replay "f" 0 c3merged c3dump ≠ c3merged
  ∧ (∃ c, dget c3merged.configs 5 = some c ∧ 0 - c.timestamp < 60)
  ∧ dget c3merged.inp_hosts 5 = none
  ∧ (replay "f" 0 c3merged c3dump).timeperiods.map (fun tp => tp.dateranges)
      = [[{ timeranges := [.dictShape 8 0 17 0] }]]
  ∧ c3merged.timeperiods.map (fun tp => tp.dateranges)
      = [[{ timeranges := [.canon ⟨8, 0, 17, 0⟩] }]] :=
  ⟨by decide, ⟨_, rfl, by decide⟩, rfl, rfl, rfl⟩

/-- C3 (amended): replaying, within the stored Config's 60-second
window, any sequence of dump events each of which is a provable
duplicate — the program status itself (ignored as a duplicate), the
staged initial host/hostgroup/service/servicegroup/contactgroup kinds
(no-ops once the completed merge deleted the staging), command and
peer-link events whose stored entity already equals the event's
content, notification-way events whose stored object is a fixed point
of reset-then-relink, contact events whose stored contact is exactly
what the event rebuilds and relinks to, the final broks-done (aborted
for lack of staging), and unmanaged events — leaves the whole
regenerator state bit-for-bit unchanged.  The original every-entity
claim is false: the dump's timeperiod events are NOT idempotent (see
the counterexample), because the handler's update branch overwrites
the normalized stored timeperiod with raw event data. -/
theorem c3_replay_amended (fresh : String) (now : Nat) (st : RState)
    (bs : List Brok) (h : ∀ b ∈ bs, dupNoop fresh now st b) :
    replay fresh now st bs = st := by
  induction bs with
  | nil => rfl
  | cons b rest ih =>
      unfold replay at ih ⊢
      dsimp only [List.foldl]
      rw [stepState_eq_of_dupNoop fresh now st b (h b (List.mem_cons_self b rest))]
      exact ih (fun x hx => h x (List.mem_cons_of_mem b hx))

/-- C3 witness: replaying the duplicate program status, a staged-kind
initial event, the dump's command, notification-way, contact and
scheduler events and the final broks-done over a concrete merged
store leaves it unchanged. -/
theorem c3_replay_amended_witness :
    replay "f" 0 c3wst [c3wprog, c3whg, c3wcmd, c3wnwb, c3wcb, c3wpeerb,
      c3wdone] = c3wst :=
  c3_replay_amended "f" 0 c3wst
    [c3wprog, c3whg, c3wcmd, c3wnwb, c3wcb, c3wpeerb, c3wdone]
    (by
      intro b hb
      simp only [List.mem_cons, List.not_mem_nil, or_false] at hb
      rcases hb with rfl | rfl | rfl | rfl | rfl | rfl | rfl
      · exact ⟨mkConfig "c5" 5 0, rfl, by decide⟩
      · rfl
      · exact ⟨rfl, by decide⟩
      · exact ⟨c3wnw, rfl, by decide⟩
      · refine ⟨c3wcontact, "n1", [], rfl, rfl, ?_, by decide⟩
        intro w hw
        simp only [List.mem_singleton, NwItem.uuidStr.injEq] at hw
        subst hw
        exact ⟨c3wnw, by decide, by decide⟩
      · rfl
      · rfl)

theorem mem_addByIdService (l : List Service) (v : Service) :
    v ∈ addByIdService l v := by
  unfold addByIdService
  by_cases hany : l.any (fun x => x.id = v.id)
  · rw [if_pos hany]
    obtain ⟨x, hx, hid⟩ := List.any_eq_true.mp hany
    exact List.mem_map.mpr ⟨x, hx, by simp [of_decide_eq_true hid]⟩
  · rw [if_neg hany]
    exact List.mem_append_right _ (List.mem_singleton.mpr rfl)

/-- C7 counterexample: a complete, fully successful Linker pass over a
staging whose single service names a host that exists nowhere leaves
that service in the store with `host = None` — the claimed invariant
"for every Service in the Store, service.host is a live Host whose
name equals the service's host_name" fails (lines 390-397 bind
`host = None` and insert the service anyway). -/
theorem c7_counterexample :
    (all_done_linking c7st 3).2 = none
  ∧ (all_done_linking c7st 3).1.services.map (fun s => (s.host_name, s.host))
      = [("ghost", none)]
  ∧ (all_done_linking c7st 3).1.hosts = [] :=
  ⟨rfl, rfl, rfl⟩

/-- C7 (amended): the back-reference invariant holds only for a staged
service whose `host_name` resolves among the store hosts at its
linking step: any such service — whatever its `servicegroups` carry —
is inserted with `host` set to the resolved host's id, and that host's
`services` back-list afterwards is the prior list with any
same-described predecessor removed and the service's
`(id, description)` pair appended.  A service whose name does not
resolve is inserted with `host = None` (see the counterexample), so
the spec's every-service form is false. -/
theorem c7_backref_amended (st : RState) (s : Service) (h : Host)
    (hfind : findHostByName st.hosts s.host_name = some h)
    (hok : (linkOneService st s).2.2 = none) :
    (linkOneService st s).2.1.host = some h.id
  ∧ (linkOneService st s).2.1 ∈ (linkOneService st s).1.services
  ∧ ∃ h', (linkOneService st s).1.hosts.find? (fun x => x.id = h.id) = some h'
      ∧ h'.services
          = (match h.services.find? (fun p => p.2 = s.service_description) with
             | some old => h.services.erase old
             | none => h.services)
            ++ [((linkOneService st s).2.1.id, s.service_description)] := by
  have hmem : h ∈ st.hosts := by
    unfold findHostByName at hfind
    exact List.mem_of_find?_eq_some hfind
  have hsome : (st.hosts.find? (fun x => x.id = h.id)).isSome := by
    rw [List.find?_isSome]
    exact ⟨h, hmem, by simp⟩
  unfold linkOneService at hok ⊢
  dsimp only at hok ⊢
  by_cases hsg : s.servicegroups.isEmpty
  · simp only [hsg, eq_self_iff_true, if_true] at hok ⊢
    rw [hfind] at hok ⊢
    dsimp only at hok ⊢
    repeat' split at hok
    all_goals first
      | exact absurd hok (Option.some_ne_none _)
      | exact ⟨rfl, mem_addByIdService _ _,
          ⟨_, find?_setFirst _ _ _ hsome (by simp), rfl⟩⟩
  · rw [Bool.not_eq_true] at hsg
    simp only [hsg, Bool.false_eq_true, if_false] at hok ⊢
    rw [hfind] at hok ⊢
    dsimp only at hok ⊢
    repeat' split at hok
    all_goals first
      | exact absurd hok (Option.some_ne_none _)
      | exact ⟨rfl, mem_addByIdService _ _,
          ⟨_, find?_setFirst _ _ _ hsome (by simp), rfl⟩⟩

/-- C7 witness: the amended statement at a one-host store and a staged
service naming it. -/
theorem c7_backref_amended_witness :
    (linkOneService c7wst c7wsvc).2.1.host = some (mkHost "hw" "web7" 3).id
  ∧ (linkOneService c7wst c7wsvc).2.1 ∈ (linkOneService c7wst c7wsvc).1.services
  ∧ ∃ h', (linkOneService c7wst c7wsvc).1.hosts.find?
        (fun x => x.id = (mkHost "hw" "web7" 3).id) = some h'
      ∧ h'.services
          = (match (mkHost "hw" "web7" 3).services.find?
                (fun p => p.2 = c7wsvc.service_description) with
             | some old => (mkHost "hw" "web7" 3).services.erase old
             | none => (mkHost "hw" "web7" 3).services)
            ++ [((linkOneService c7wst c7wsvc).2.1.id,
                c7wsvc.service_description)] :=
  c7_backref_amended c7wst c7wsvc (mkHost "hw" "web7" 3) rfl rfl

/-- C10: the tag-usage counters `tags` and `services_tags` are
monotonically non-decreasing under every brok operation of
`manage_brok`; the restart purge of `manage_program_status_brok`
leaves both counters exactly unchanged (it never decrements the purged
entities' tag counts); and a fully successful Linker pass adds the
staged hosts' (resp. staged services') tag multiplicities to the
counters once more — so re-dumping the same hosts after the 60-second
window counts their tags a second time. -/
theorem c10_tag_counters_monotone :
    (∀ (fresh : String) (now : Nat) (st : RState) (b : Brok) (t : String),
        tagCount st.tags t ≤ tagCount (manage_brok fresh now st b).1.tags t
      ∧ tagCount st.services_tags t
          ≤ tagCount (manage_brok fresh now st b).1.services_tags t)
  ∧ (∀ (now : Nat) (st : RState) (did duid : PyVal) (d : ProgramData)
        (t : String),
        tagCount (manage_program_status_brok now st did duid d).tags t
          = tagCount st.tags t
      ∧ tagCount (manage_program_status_brok now st did duid d).services_tags t
          = tagCount st.services_tags t)
  ∧ (∀ (st : RState) (inst : Int) (t : String) (inpH : List (PyVal × Host))
        (inpS : List (PyVal × Service)),
        st.in_scheduler_mode = false →
        (dget st.configs inst).isNone = false →
        dget st.inp_hosts inst = some inpH →
        dget st.inp_services inst = some inpS →
        (dget st.inp_hostgroups inst).isSome = true →
        (dget st.inp_contactgroups inst).isSome = true →
        (dget st.inp_servicegroups inst).isSome = true →
        (all_done_linking st inst).2 = none →
        tagCount (all_done_linking st inst).1.tags t
          = tagCount st.tags t + (inpH.map (fun p => p.2.tags.count t)).sum
        ∧ tagCount (all_done_linking st inst).1.services_tags t
          = tagCount st.services_tags t
            + (inpS.map (fun p => p.2.tags.count t)).sum) := by
  refine ⟨fun fresh now st b t => manage_brok_tags_ge fresh now st b t,
    fun now st did duid d t =>
      ⟨congrArg (fun l => tagCount l t)
          (manage_program_status_tags now st did duid d).1,
        congrArg (fun l => tagCount l t)
          (manage_program_status_tags now st did duid d).2⟩,
    fun st inst t inpH inpS h1 h2 h3 h4 h5 h6 h7 h8 =>
      all_done_linking_success_tag_add st inst t inpH inpS h1 h2 h3 h4 h5 h6
        h7 h8⟩

/-- C10 witness: a concrete successful Linker pass over one staged
tagged host and one staged tagged service adds one occurrence of each
tag. -/
theorem c10_tag_counters_monotone_witness :
    tagCount (all_done_linking c10st 7).1.tags "linux"
      = tagCount c10st.tags "linux"
        + (([((PyVal.int 1), c10host)].map
            (fun p => p.2.tags.count "linux")).sum)
  ∧ tagCount (all_done_linking c10st 7).1.services_tags "web"
      = tagCount c10st.services_tags "web"
        + (([((PyVal.int 2), c10svc)].map
            (fun p => p.2.tags.count "web")).sum) :=
  ⟨(c10_tag_counters_monotone.2.2 c10st 7 "linux" [(.int 1, c10host)]
      [(.int 2, c10svc)] rfl (by decide) rfl rfl (by decide) (by decide)
      (by decide) (by decide)).1,
   (c10_tag_counters_monotone.2.2 c10st 7 "web" [(.int 1, c10host)]
      [(.int 2, c10svc)] rfl (by decide) rfl rfl (by decide) (by decide)
      (by decide) (by decide)).2⟩

/-- C9 witness: the amended statement's creation branch at a concrete
empty store. -/
theorem c9_timerange_normalization_amended_witness :
    ∃ tp, findTimeperiodByName c9st1.timeperiods "worktime" = some tp
      ∧ (∀ dr ∈ tp.dateranges, ∀ tr ∈ dr.timeranges,
          ∃ t : Timerange, tr = .canon t)
      ∧ tp.dateranges = c9data.dateranges.map (fun dr =>
          { dr with timeranges :=
              dr.timeranges.map (fun tr => .canon (normalizeTimerange tr)) }) :=
  (c9_timerange_normalization_amended (initState 0) (.str "tp1") (.str "tp1")
    c9data).1 rfl

end Regen
